import Mathlib

/-!
# Shallow embedding of the clinical-trials ETL normalization core

This file embeds, in Lean 4, the data-shaping core of the clinical-trials
repository and settles the frozen claims about it:

* `src/data_processors/trial_processor.py` — the structured-results endpoint
  and baseline extractors (tier 4.2), the free-text publication extractors
  (tier 4.3), the literature fallback tables (tier 4.4), the fallback
  orchestrators and the deduplication helpers;
* `src/data_processors/endpoint_processor.py` — the alias normalizer;
* `src/api/main.py` — the serving layer's compare-endpoint selection paths
  and its database-dependency / JSON-fallback control flow.

Modelling conventions:

* Python floats are modelled exactly as rationals (`ℚ`); rounding and
  overflow-to-infinity of IEEE doubles are not modelled (no verdict below
  depends on them).
* JSON scalar values are modelled by `JVal` (string / number / null).
  A Python dict key that is absent is modelled by `Option` where the
  distinction between an absent key and a `None` value matters (it matters
  for the deduplication completeness count, which counts non-`None` values
  of the keys actually present).
* Python's `dict.get(k, default)` on raw documents is modelled by plain
  structure fields whose value is the default when the source document
  omits the key; this is observationally identical.
* Regular-expression matching (`re.findall` / `re.search` with
  `re.IGNORECASE` over text that the code has already lower-cased) is
  embedded by a small backtracking matcher over a token representation of
  the exact patterns that appear in the source.  The matcher follows
  Python's leftmost-match, ordered-alternation, lazy `.*?` and greedy
  quantifier semantics; it is fuelled, and every use in this file supplies
  fuel that exceeds the maximal possible backtracking depth (each step of
  the matcher consumes either one token or one character of input).
-/

set_option maxRecDepth 4000

namespace ClinicalTrials

/-- A JSON scalar value as it appears in the emitted records:
a string, a (finite) number, or null (Python `None`). -/
inductive JVal where
  | s (x : String)
  | n (x : ℚ)
  | null
deriving DecidableEq, Repr

/-- Does a `JVal` hold a number? -/
def JVal.isNum : JVal → Bool
  | .n _ => true
  | _ => false

/-- Does a `JVal` hold a string? -/
def JVal.isStr : JVal → Bool
  | .s _ => true
  | _ => false

/-! ## Python string primitives -/

/-- Python `\s` (ASCII range): space, tab, newline, carriage return,
vertical tab, form feed. -/
def isPySpace (c : Char) : Bool :=
  c = ' ' || c = '\t' || c = '\n' || c = '\r' || c = '\x0b' || c = '\x0c'

/-- Python `str.lower()` on a character (ASCII; all strings handled by the
embedded code are ASCII). -/
def lowerChar (c : Char) : Char := c.toLower

/-- Python `str.lower()` on a string. -/
def lowerStr (s : String) : String := String.mk (s.toList.map lowerChar)

/-- Python `str.upper()` on a string (ASCII). -/
def upperStr (s : String) : String := String.mk (s.toList.map Char.toUpper)

/-- First index of `needle` in `hay` (Python `str.find`, as `Option`;
Python returns `-1` for `none`). -/
def findSubAux (needle : List Char) : List Char → Nat → Option Nat
  | hay, i =>
    if needle.isPrefixOf hay then some i
    else
      match hay with
      | [] => none
      | _ :: t => findSubAux needle t (i + 1)

/-- First index of `needle` in `hay`. -/
def findSub (hay needle : List Char) : Option Nat := findSubAux needle hay 0

/-- Python `needle in hay` substring test on char lists. -/
def hasSubL (needle hay : List Char) : Bool := (findSub hay needle).isSome

/-- Python `needle in hay` substring test on strings. -/
def hasSubS (needle hay : String) : Bool := hasSubL needle.toList hay.toList

/-- Python `any(term in hay for term in terms)`. -/
def containsAnyL (hay : List Char) (terms : List String) : Bool :=
  terms.any (fun t => hasSubL t.toList hay)

/-- Python slice `s[a:b]` for `a ≤ b` (indices clipped to the string). -/
def sliceL (s : List Char) (a b : Nat) : List Char := (s.take b).drop a

/-- Python `str.capitalize()`: first character upper-cased, the rest
lower-cased. -/
def pyCapitalize (s : String) : String :=
  match s.toList with
  | [] => ""
  | c :: t => String.mk (c.toUpper :: t.map lowerChar)

/-- Python `str.strip()` (whitespace from both ends). -/
def pyStrip (s : List Char) : List Char :=
  ((s.dropWhile isPySpace).reverse.dropWhile isPySpace).reverse

/-- `re.sub(r'\s+', ' ', ·)`: each maximal whitespace run becomes one
space. -/
def collapseWsL : List Char → List Char
  | [] => []
  | c :: t =>
    if isPySpace c then ' ' :: collapseWsL (t.dropWhile isPySpace)
    else c :: collapseWsL t
termination_by l => l.length
decreasing_by
  all_goals simp only [List.length_cons]
  · exact Nat.lt_succ_of_le ((List.dropWhile_suffix _).sublist.length_le)
  · exact Nat.lt_succ_self _

/-- `re.sub(r'\s+', ' ', name).strip()` as used by the alias normalizer's
fallback branch. -/
def collapseWs (s : String) : String := String.mk (pyStrip (collapseWsL s.toList))

/-! ## Python `float()` on strings

`pyFloat` models Python's `float(str)` on the decimal literals that occur
in this code base: optional surrounding whitespace, optional sign, integer
and/or fractional digits, optional exponent.  Inputs outside this shape
(such as `"NR"` or `"Not reported"`) fail, as they raise `ValueError` in
Python.  IEEE rounding/overflow is not modelled (values are exact
rationals). -/

/-- Digits to a natural number. -/
def digitsVal (ds : List Char) : Nat :=
  ds.foldl (fun a c => a * 10 + (c.toNat - 48)) 0

/-- Parse the unsigned mantissa `\d*(\.\d*)?` requiring at least one
digit; returns the combined digit value as an integer, the number of
fractional digits, and the rest of the input.  (The rational value is
assembled with `mkRat` rather than field division so that it reduces
inside the kernel.) -/
def pyFloatMantissa (s : List Char) : Option (Int × Nat × List Char) :=
  let ip := s.takeWhile Char.isDigit
  let s1 := s.dropWhile Char.isDigit
  match s1 with
  | '.' :: r =>
    let fp := r.takeWhile Char.isDigit
    let s2 := r.dropWhile Char.isDigit
    if ip = [] && fp = [] then none
    else some ((digitsVal ip * 10 ^ fp.length + digitsVal fp : Nat), fp.length, s2)
  | _ =>
    if ip = [] then none
    else some ((digitsVal ip : Nat), 0, s1)

/-- Python `float()` on a string (decimal-literal subset; see above). -/
def pyFloat (s : String) : Option ℚ :=
  let cs := (s.toList.dropWhile isPySpace).reverse.dropWhile isPySpace |>.reverse
  let (sgn, cs1) : Int × List Char :=
    match cs with
    | '-' :: t => (-1, t)
    | '+' :: t => (1, t)
    | t => (1, t)
  match pyFloatMantissa cs1 with
  | none => none
  | some (m, fracLen, rest) =>
    match rest with
    | [] => some (mkRat (sgn * m) (10 ^ fracLen))
    | 'e' :: r => pyFloatWithExp (sgn * m) fracLen r
    | 'E' :: r => pyFloatWithExp (sgn * m) fracLen r
    | _ => none
where
  /-- Apply an exponent suffix `[+-]?\d+` to the signed mantissa. -/
  pyFloatWithExp (num : Int) (fracLen : Nat) (r : List Char) : Option ℚ :=
    let (neg, r1) : Bool × List Char :=
      match r with
      | '-' :: t => (true, t)
      | '+' :: t => (false, t)
      | t => (false, t)
    let ed := r1.takeWhile Char.isDigit
    let r2 := r1.dropWhile Char.isDigit
    if ed = [] || r2 ≠ [] then none
    else if neg then some (mkRat num (10 ^ fracLen * 10 ^ digitsVal ed))
    else some (mkRat (num * 10 ^ digitsVal ed) (10 ^ fracLen))

/-! ## Regular-expression engine

Token-level embedding of the exact regular expressions used by
`extract_publication_endpoints` and `extract_publication_baseline_measures`.
The text those functions match against has already been lower-cased by the
code, and all patterns are compiled with `re.IGNORECASE`, so literals are
stored lower-cased and matched exactly. -/

/-- One token of a compiled pattern.  Captures (`numCap`, `posNumCap`,
`intCap`, `pvalCap`) correspond to the single capturing group each source
pattern contains. -/
inductive Tok where
  /-- A literal string. -/
  | lit (w : List Char)
  /-- Ordered alternation `(?:A|B|...)` of token sequences. -/
  | alt (cs : List (List Tok))
  /-- Greedy optional alternation `(?:A|B|...)?`. -/
  | opt (cs : List (List Tok))
  /-- Lazy `.*?` (any character except newline). -/
  | star
  /-- Greedy `.{0,n}` (any character except newline). -/
  | dotMax (n : Nat)
  /-- `\s+` (greedy). -/
  | wsPlus
  /-- `\s*` (greedy). -/
  | wsStar
  /-- Capturing group `(-?\d+\.?\d*)`. -/
  | numCap
  /-- Capturing group `(\d+\.?\d*)`. -/
  | posNumCap
  /-- Capturing group `(\d+)`. -/
  | intCap
  /-- Capturing group `(0\.\d+)`. -/
  | pvalCap
deriving Repr

/-- Deterministic parse of `-?\d+\.?\d*` (greedy sub-matches).  In every
pattern of the source the text that follows the capturing group can never
begin with a digit or a dot, so Python's backtracking never shortens this
group and the greedy parse is exact. -/
def numCapParse (sign : Bool) (s : List Char) : Option (List Char × List Char) :=
  let (neg, s1) : List Char × List Char :=
    match sign, s with
    | true, '-' :: t => (['-'], t)
    | _, t => ([], t)
  let ds := s1.takeWhile Char.isDigit
  let r := s1.dropWhile Char.isDigit
  if ds = [] then none
  else
    match r with
    | '.' :: r2 =>
      let fs := r2.takeWhile Char.isDigit
      some (neg ++ ds ++ '.' :: fs, r2.dropWhile Char.isDigit)
    | _ => some (neg ++ ds, r)

/-- Deterministic parse of `\d+`. -/
def intCapParse (s : List Char) : Option (List Char × List Char) :=
  let ds := s.takeWhile Char.isDigit
  if ds = [] then none else some (ds, s.dropWhile Char.isDigit)

/-- Deterministic parse of `0\.\d+`. -/
def pvalCapParse (s : List Char) : Option (List Char × List Char) :=
  match s with
  | '0' :: '.' :: r =>
    let ds := r.takeWhile Char.isDigit
    if ds = [] then none else some ('0' :: '.' :: ds, r.dropWhile Char.isDigit)
  | _ => none

/-- Anchored match of a token sequence against the input, in Python's
preference order (ordered alternation, lazy `.*?`, greedy quantifiers).
Returns the unmatched rest of the input and the content of the capturing
group, for the first alternative in preference order that matches.  `fuel`
bounds the recursion depth; every recursive call consumes one unit, and a
successful or failed exploration path consumes at most one unit per token
(counting tokens inside alternations once per expansion) plus one unit per
input character, so any fuel above that bound yields the exact Python
result. -/
def mt : Nat → List Tok → List Char → Option (List Char × Option (List Char))
  | 0, _, _ => none
  | _ + 1, [], s => some (s, none)
  | fuel + 1, t :: ts, s =>
    match t with
    | .lit w =>
      if w.isPrefixOf s then mt fuel ts (s.drop w.length) else none
    | .alt cs =>
      cs.foldr (fun c acc => (mt fuel (c ++ ts) s).orElse (fun _ => acc)) none
    | .opt cs =>
      (cs.foldr (fun c acc => (mt fuel (c ++ ts) s).orElse (fun _ => acc)) none).orElse
        (fun _ => mt fuel ts s)
    | .star =>
      (mt fuel ts s).orElse (fun _ =>
        match s with
        | [] => none
        | c :: s2 => if c = '\n' then none else mt fuel (Tok.star :: ts) s2)
    | .dotMax n =>
      (match n, s with
        | n2 + 1, c :: s2 =>
          if c = '\n' then none else mt fuel (Tok.dotMax n2 :: ts) s2
        | _, _ => none).orElse (fun _ => mt fuel ts s)
    | .wsPlus =>
      (match s with
        | c :: s2 => if isPySpace c then mt fuel (Tok.wsStar :: ts) s2 else none
        | [] => none)
    | .wsStar =>
      (match s with
        | c :: s2 =>
          if isPySpace c then (mt fuel (Tok.wsStar :: ts) s2).orElse (fun _ => mt fuel ts s)
          else mt fuel ts s
        | [] => mt fuel ts s)
    | .numCap =>
      match numCapParse true s with
      | none => none
      | some (cap, r) =>
        match mt fuel ts r with
        | none => none
        | some (rest, _) => some (rest, some cap)
    | .posNumCap =>
      match numCapParse false s with
      | none => none
      | some (cap, r) =>
        match mt fuel ts r with
        | none => none
        | some (rest, _) => some (rest, some cap)
    | .intCap =>
      match intCapParse s with
      | none => none
      | some (cap, r) =>
        match mt fuel ts r with
        | none => none
        | some (rest, _) => some (rest, some cap)
    | .pvalCap =>
      match pvalCapParse s with
      | none => none
      | some (cap, r) =>
        match mt fuel ts r with
        | none => none
        | some (rest, _) => some (rest, some cap)

/-- Fuel that exceeds the depth bound of `mt` for all patterns in this
file (every pattern holds well under 200 tokens counting alternation
expansions). -/
def mtFuel (s : List Char) : Nat := s.length + 200

/-- Scan for the leftmost match of a token sequence (Python `re.search`).
Returns the whole matched text (group 0), the capturing group (group 1)
and the rest of the input after the match. -/
def searchAux (toks : List Tok) (s : List Char) :
    Option (List Char × Option (List Char) × List Char) :=
  match mt (mtFuel s) toks s with
  | some (rest, cap) => some (s.take (s.length - rest.length), cap, rest)
  | none =>
    match s with
    | [] => none
    | _ :: t => searchAux toks t

/-- `re.search(...)` returning group 1. -/
def searchGroup1 (toks : List Tok) (s : List Char) : Option (List Char) :=
  match searchAux toks s with
  | some (_, cap, _) => cap
  | none => none

/-- `re.search(...)` returning group 0 (the whole match). -/
def searchWhole (toks : List Tok) (s : List Char) : Option (List Char) :=
  match searchAux toks s with
  | some (whole, _, _) => some whole
  | none => none

/-- `re.findall` for a pattern with exactly one capturing group: the list
of group-1 texts of the non-overlapping matches, scanning left to right.
Every pattern in this file consumes at least one character per match, so
the guard against empty matches never fires. -/
def findallAux (toks : List Tok) : Nat → List Char → List (List Char)
  | 0, _ => []
  | n + 1, s =>
    match searchAux toks s with
    | none => []
    | some (whole, cap, rest) =>
      cap.getD whole ::
        (if rest.length < s.length then findallAux toks n rest else [])

/-- `re.findall(pattern, text)`, group-1 captures. -/
def findallToks (toks : List Tok) (s : List Char) : List (List Char) :=
  findallAux toks (s.length + 1) s

/-- Literal token. -/
def litT (w : String) : Tok := Tok.lit w.toList

/-- Alternation of plain literals `(?:a|b|...)`. -/
def altT (ws : List String) : Tok := Tok.alt (ws.map (fun w => [Tok.lit w.toList]))

/-- Optional alternation of plain literals `(?:a|b|...)?`. -/
def optT (ws : List String) : Tok := Tok.opt (ws.map (fun w => [Tok.lit w.toList]))

/-! ## Records

The extractors emit plain dicts.  Keys that are present in some emitting
paths and absent in others are modelled with `Option JVal` (`none` = key
absent, `some .null` = key present with value `None`); this distinction
feeds the deduplication completeness count, which counts the non-`None`
values of the keys actually present. -/

/-- An endpoint dict as emitted by tiers 4.2/4.3/4.4.  Tier 4.2 emits no
`source`/`context` keys; the literature tier emits `source` but no
`context`; the free-text tier emits both. -/
structure EndpointRec where
  name : String
  description : String
  timepoint : String
  arm : String
  average_value : JVal
  upper_end : JVal
  lower_end : JVal
  statistical_significance : JVal
  source : Option JVal
  context : Option JVal
deriving DecidableEq, Repr

/-- A baseline-measure dict (same shape minus timepoint/significance). -/
structure BaselineRec where
  name : String
  description : String
  arm : String
  average_value : JVal
  upper_end : JVal
  lower_end : JVal
  source : Option JVal
  context : Option JVal
deriving DecidableEq, Repr

/-- Non-`None` values among the present keys of a `JVal`. -/
def jvalCount : JVal → Nat
  | .null => 0
  | _ => 1

/-- Non-`None` values among the present keys of an optional key. -/
def optCount : Option JVal → Nat
  | none => 0
  | some v => jvalCount v

/-- `sum(1 for v in x.values() if v is not None)` for an endpoint dict
(the four string-valued keys are never `None`). -/
def epCount (e : EndpointRec) : Nat :=
  4 + jvalCount e.average_value + jvalCount e.upper_end + jvalCount e.lower_end +
    jvalCount e.statistical_significance + optCount e.source + optCount e.context

/-- The completeness count for a baseline dict. -/
def bmCount (b : BaselineRec) : Nat :=
  3 + jvalCount b.average_value + jvalCount b.upper_end + jvalCount b.lower_end +
    optCount b.source + optCount b.context

/-! ## Pattern tables (tier 4.3)

Token embeddings of the `endpoint_patterns`, generic, `baseline_patterns`,
p-value and timepoint regexes of `trial_processor.py`, in source order. -/

/-- One named pattern group of `endpoint_patterns` / `baseline_patterns`. -/
structure PatGroup where
  gname : String
  gdesc : String
  pats : List (List Tok)

/-- `(?:was|were|of|:)`. -/
def wasAlt : Tok := altT ["was", "were", "of", ":"]

/-- `endpoint_patterns` in dict (insertion) order. -/
def endpointPatterns : List PatGroup :=
  [⟨"PVR", "Pulmonary Vascular Resistance - measure of resistance in pulmonary circulation",
    [[altT ["pvr", "pulmonary vascular resistance"], .star, .numCap, .wsStar, optT ["%", "percent"]],
     [litT "pulmonary resistance", .star, .numCap, .wsStar, optT ["dyn", "dyne", "wood", "%", "percent"]],
     [altT ["decrease", "change", "reduction", "improvement"], .wsPlus, litT "in", .wsPlus,
      altT ["pvr", "pulmonary vascular resistance"], .star, .numCap],
     [altT ["pvr", "pulmonary vascular resistance"], .star, wasAlt, .wsStar, .numCap]]⟩,
   ⟨"6MWD", "6-Minute Walk Distance - measure of exercise capacity",
    [[altT ["6mwd", "6-minute walk distance", "6 minute walk"], .star, .numCap, .wsStar, optT ["m", "meters", "meter"]],
     [altT ["increase", "change", "improvement"], .wsPlus, litT "in", .wsPlus,
      altT ["6mwd", "6-minute walk distance", "6 minute walk"], .star, .numCap],
     [altT ["6mwd", "6-minute walk distance", "6 minute walk"], .star, wasAlt, .wsStar, .numCap],
     [litT "distance walked", .star, .numCap, .wsStar, altT ["m", "meters", "meter"]]]⟩,
   ⟨"NT-proBNP", "NT-proBNP - biomarker of heart failure",
    [[Tok.alt [[litT "nt-probnp"], [litT "nt probnp"], [litT "n-terminal pro", .dotMax 20, litT "bnp"]], .star, .numCap],
     [altT ["decrease", "change", "reduction"], .wsPlus, litT "in", .wsPlus,
      Tok.alt [[litT "nt-probnp"], [litT "nt probnp"], [litT "n-terminal pro", .dotMax 20, litT "bnp"]], .star, .numCap],
     [Tok.alt [[litT "nt-probnp"], [litT "nt probnp"], [litT "n-terminal pro", .dotMax 20, litT "bnp"]], .star, wasAlt, .wsStar, .numCap],
     [litT "brain natriuretic peptide", .star, .numCap]]⟩,
   ⟨"WHO FC", "WHO Functional Class - classification of functional status in patients with pulmonary hypertension",
    [[altT ["who fc", "who functional class", "functional class"], .star, .numCap],
     [altT ["improvement", "change"], .wsPlus, litT "in", .wsPlus,
      altT ["who fc", "who functional class", "functional class"], .star, .numCap],
     [altT ["who fc", "who functional class", "functional class"], .star, wasAlt, .wsStar, .numCap],
     [litT "functional class improvement", .star, .numCap]]⟩,
   ⟨"CI", "Cardiac Index - a measurement of cardiac output adjusted for body size",
    [[altT ["cardiac index", "ci"], .star, .numCap],
     [altT ["increase", "change", "improvement"], .wsPlus, litT "in", .wsPlus,
      altT ["cardiac index", "ci"], .star, .numCap],
     [altT ["cardiac index", "ci"], .star, wasAlt, .wsStar, .numCap],
     [litT "cardiac output", .star, .numCap, .wsStar, altT ["l/min", "l/min/m2"]]]⟩]

/-- The last-resort `generic_patterns` (pattern, description), in source
order. -/
def genericPatterns : List (List Tok × String) :=
  [([litT "decrease", optT ["d"], litT " by ", .posNumCap, litT "%"], "Percent decrease"),
   ([litT "increase", optT ["d"], litT " by ", .posNumCap, litT "%"], "Percent increase"),
   ([litT "improved by ", .posNumCap], "Improvement"),
   ([litT "reduction of ", .posNumCap], "Reduction"),
   ([litT "change of ", .posNumCap], "Change")]

/-- `baseline_patterns` in dict (insertion) order. -/
def baselinePatterns : List PatGroup :=
  [⟨"PVR", "Baseline Pulmonary Vascular Resistance",
    [[altT ["baseline", "initial"], .wsPlus, altT ["pulmonary vascular resistance", "pvr"], .star, .posNumCap],
     [altT ["pulmonary vascular resistance", "pvr"], .wsPlus, optT ["at", "@"], .wsPlus, litT "baseline", .star, .posNumCap],
     [altT ["baseline", "initial", "mean"], .wsPlus, altT ["pulmonary vascular resistance", "pvr"], .star, .posNumCap, .wsStar, altT ["dyn", "dyne", "wood"]],
     [litT "baseline characteristics", .star, altT ["pvr", "pulmonary vascular resistance"], .star, .posNumCap]]⟩,
   ⟨"6MWD", "Baseline 6-Minute Walk Distance",
    [[altT ["baseline", "initial"], .wsPlus, altT ["6-minute walk distance", "6mwd", "6 minute walk distance"], .star, .posNumCap],
     [altT ["6-minute walk distance", "6mwd", "6 minute walk distance"], .wsPlus, optT ["at", "@"], .wsPlus, litT "baseline", .star, .posNumCap],
     [altT ["baseline", "initial", "mean"], .wsPlus, altT ["6-minute walk distance", "6mwd", "6 minute walk distance"], .star, .posNumCap, .wsStar, altT ["meters", "m", "meter"]],
     [litT "baseline characteristics", .star, altT ["6mwd", "6-minute walk distance"], .star, .posNumCap]]⟩,
   ⟨"NT-proBNP", "Baseline NT-proBNP levels",
    [[altT ["baseline", "initial"], .wsPlus,
      Tok.alt [[litT "nt-probnp"], [litT "nt", .wsPlus, litT "probnp"], [litT "n-terminal pro-brain natriuretic peptide"]], .star, .posNumCap],
     [Tok.alt [[litT "nt-probnp"], [litT "nt", .wsPlus, litT "probnp"], [litT "n-terminal pro-brain natriuretic peptide"]],
      .wsPlus, optT ["at", "@"], .wsPlus, litT "baseline", .star, .posNumCap],
     [altT ["baseline", "initial", "mean"], .wsPlus,
      Tok.alt [[litT "nt-probnp"], [litT "nt", .wsPlus, litT "probnp"], [litT "n-terminal pro-brain natriuretic peptide"]], .star, .posNumCap],
     [litT "baseline characteristics", .star, altT ["nt-probnp", "natriuretic peptide"], .star, .posNumCap]]⟩,
   ⟨"WHO FC", "Baseline WHO Functional Class",
    [[altT ["baseline", "initial"], .wsPlus,
      Tok.alt [[litT "who functional class"], [litT "who", .wsPlus, litT "fc"], [litT "functional class"]], .star, .posNumCap],
     [Tok.alt [[litT "who functional class"], [litT "who", .wsPlus, litT "fc"], [litT "functional class"]],
      .wsPlus, optT ["at", "@"], .wsPlus, litT "baseline", .star, .posNumCap],
     [altT ["baseline", "initial", "mean"], .wsPlus,
      Tok.alt [[litT "who functional class"], [litT "who", .wsPlus, litT "fc"], [litT "functional class"]], .star, .posNumCap],
     [litT "baseline characteristics", .star, altT ["who fc", "functional class"], .star, .posNumCap]]⟩,
   ⟨"CI", "Baseline Cardiac Index",
    [[altT ["baseline", "initial"], .wsPlus, altT ["cardiac index", "ci"], .star, .posNumCap],
     [altT ["cardiac index", "ci"], .wsPlus, optT ["at", "@"], .wsPlus, litT "baseline", .star, .posNumCap],
     [altT ["baseline", "initial", "mean"], .wsPlus, altT ["cardiac index", "ci"], .star, .posNumCap],
     [litT "baseline characteristics", .star, altT ["cardiac index", "ci"], .star, .posNumCap]]⟩]

/-- `p\s*[<=>]\s*(0\.\d+)`. -/
def pvalToks : List Tok := [litT "p", .wsStar, altT ["<", "=", ">"], .wsStar, .pvalCap]

/-- `(?:week|month|day)\s*(\d+)`. -/
def tpToks : List Tok := [altT ["week", "month", "day"], .wsStar, .intCap]

/-- The baseline-indicating terms that make the endpoint extractor skip a
match. -/
def endpointSkipTerms : List String := ["baseline", "initial", "at screening", "at enrollment"]

/-- The baseline-indicating terms the baseline extractor requires. -/
def baselineKeepTerms : List String :=
  ["baseline", "initial", "at screening", "at enrollment", "demographics"]

/-- The placebo/control context terms. -/
def placeboTerms : List String := ["placebo", "control group", "control arm"]

/-! ## Deduplication (`_deduplicate_endpoints` / `_deduplicate_baseline_measures`)

The code groups the candidates in a Python dict keyed by `(name, arm)`
(preserving key insertion order and appending within each group), then
stable-sorts each group by descending completeness count and keeps the
first entry — i.e. the earliest entry of maximal count. -/

variable {α : Type} {κ : Type}

/-- Insert into an insertion-ordered grouping association list, appending
to the key's slot or adding a new key at the end (Python dict behaviour). -/
def insGrouped [DecidableEq κ] (k : κ) (a : α) : List (κ × List α) → List (κ × List α)
  | [] => [(k, [a])]
  | (k2, as) :: rest =>
    if k2 = k then (k2, as ++ [a]) :: rest else (k2, as) :: insGrouped k a rest

/-- Group a list by key, preserving first-occurrence key order. -/
def groupPairs [DecidableEq κ] (key : α → κ) (l : List α) : List (κ × List α) :=
  l.foldl (fun acc a => insGrouped (key a) a acc) []

/-- The earliest element of maximal count (`entries.sort(key=count,
reverse=True); entries[0]` with Python's stable sort). -/
def pickBest (cnt : α → Nat) : List α → Option α
  | [] => none
  | a :: as => some (as.foldl (fun b x => if cnt x > cnt b then x else b) a)

/-- The deduplication pass: one entry per key, keeping the earliest
most-complete entry, keys in first-occurrence order. -/
def dedupBy [DecidableEq κ] (key : α → κ) (cnt : α → Nat) (l : List α) : List α :=
  (groupPairs key l).filterMap (fun g => pickBest cnt g.2)

/-- `_deduplicate_endpoints`. -/
def dedupEndpoints (l : List EndpointRec) : List EndpointRec :=
  dedupBy (fun e => (e.name, e.arm)) epCount l

/-- `_deduplicate_baseline_measures`. -/
def dedupBaselines (l : List BaselineRec) : List BaselineRec :=
  dedupBy (fun b => (b.name, b.arm)) bmCount l

/-! ## Publication documents -/

/-- A scientific-publication dict as consumed by the extractors (`title`,
`full_text`, `snippet`; `none` = key absent). -/
structure PubDoc where
  title : Option String
  full_text : Option String
  snippet : Option String
deriving DecidableEq, Repr

/-- A company-presentation dict (`title`, `text_sample`). -/
structure PresDoc where
  title : Option String
  text_sample : Option String
deriving DecidableEq, Repr

/-- The `publications` dict passed to the extractors. -/
structure Publications where
  scientific_publications : List PubDoc
  company_presentations : List PresDoc
deriving DecidableEq, Repr

/-- `pub.get("full_text", pub.get("snippet", ""))`. -/
def pubRawText (p : PubDoc) : String := p.full_text.getD (p.snippet.getD "")

/-- `presentation.get("text_sample", "")`. -/
def presRawText (p : PresDoc) : String := p.text_sample.getD ""

/-! ## Free-text extractor, tier 4.3 (`extract_publication_endpoints`) -/

/-- The per-match body of the named-pattern loops: convert the captured
text to a float (skipping on failure), locate the first occurrence of the
captured text in the whole blob (falling back to the middle of the text,
as the code does when `find` returns `-1`), take the ±200-character
context window, skip the match if the window contains a baseline term,
classify the arm from placebo/control terms, and mine the window for a
p-value and a timepoint. -/
def pubMatchEndpoints (gname gdesc srcLabel : String) (textL : List Char)
    (ms : List (List Char)) : List EndpointRec :=
  ms.flatMap fun m =>
    match pyFloat (String.mk m) with
    | none => []
    | some v =>
      let pos := (findSub textL m).getD (textL.length / 2)
      let ctx := sliceL textL (pos - 200) (pos + 200)
      if containsAnyL ctx endpointSkipTerms then []
      else
        let pv :=
          match searchGroup1 pvalToks ctx with
          | some g => "p=" ++ String.mk g
          | none => "Not specified"
        let tp :=
          match searchWhole tpToks ctx with
          | some w => pyCapitalize (String.mk w)
          | none => "Not specified"
        [{ name := gname
           description := gdesc
           timepoint := tp
           arm := if containsAnyL ctx placeboTerms then "placebo" else "intervention"
           average_value := .n v
           upper_end := .null
           lower_end := .null
           statistical_significance := .s pv
           source := some (.s srcLabel)
           context := some (.s (String.mk ctx)) }]

/-- The named-pattern tier over scientific publications followed by
company presentations (both use the same extraction logic; only the
provenance label differs). -/
def namedEndpointTier (pubs : Publications) : List EndpointRec :=
  (pubs.scientific_publications.flatMap fun pub =>
    let text := lowerStr (pubRawText pub)
    if text = "" then []
    else
      endpointPatterns.flatMap fun g =>
        g.pats.flatMap fun pat =>
          pubMatchEndpoints g.gname g.gdesc
            ("Extracted from publication: " ++ pub.title.getD "Unknown")
            text.toList (findallToks pat text.toList)) ++
  (pubs.company_presentations.flatMap fun pres =>
    let text := lowerStr (presRawText pres)
    if text = "" then []
    else
      endpointPatterns.flatMap fun g =>
        g.pats.flatMap fun pat =>
          pubMatchEndpoints g.gname g.gdesc
            ("Extracted from presentation: " ++ pres.title.getD "Unknown")
            text.toList (findallToks pat text.toList))

/-- The last-resort generic tier (runs over scientific publications only). -/
def genericEndpointTier (scPubs : List PubDoc) : List EndpointRec :=
  scPubs.flatMap fun pub =>
    let text := lowerStr (pubRawText pub)
    if text = "" then []
    else
      genericPatterns.flatMap fun gp =>
        (findallToks gp.1 text.toList).flatMap fun m =>
          match pyFloat (String.mk m) with
          | none => []
          | some v =>
            [{ name := "Endpoint"
               description := gp.2 ++ " - extracted from publication"
               timepoint := "Not specified"
               arm := "Not specified"
               average_value := .n v
               upper_end := .null
               lower_end := .null
               statistical_significance := .s "Not specified"
               source := some (.s ("Extracted from publication: " ++ pub.title.getD "Unknown"))
               context := some (.s (if text.toList.length > 100
                 then String.mk (text.toList.take 100) ++ "..." else text)) }]

/-- `extract_publication_endpoints`: named tier; if it produced nothing
and there is any text source, the generic tier; then deduplication.
`none` models a falsy `publications` argument. -/
def extract_publication_endpoints (publications : Option Publications) : List EndpointRec :=
  match publications with
  | none => []
  | some pubs =>
    let named := namedEndpointTier pubs
    let data :=
      if named = [] ∧ (pubs.scientific_publications ≠ [] ∨ pubs.company_presentations ≠ [])
      then genericEndpointTier pubs.scientific_publications
      else named
    dedupEndpoints data

/-- The per-match body of the baseline-pattern loops: like
`pubMatchEndpoints` but *requiring* a baseline term in the context window
and extracting no timepoint or p-value. -/
def pubMatchBaselines (gname gdesc srcLabel : String) (textL : List Char)
    (ms : List (List Char)) : List BaselineRec :=
  ms.flatMap fun m =>
    match pyFloat (String.mk m) with
    | none => []
    | some v =>
      let pos := (findSub textL m).getD (textL.length / 2)
      let ctx := sliceL textL (pos - 200) (pos + 200)
      if ¬ containsAnyL ctx baselineKeepTerms then []
      else
        [{ name := gname
           description := gdesc
           arm := if containsAnyL ctx placeboTerms then "placebo" else "intervention"
           average_value := .n v
           upper_end := .null
           lower_end := .null
           source := some (.s srcLabel)
           context := some (.s (String.mk ctx)) }]

/-- The named-pattern baseline tier (publications then presentations). -/
def namedBaselineTier (pubs : Publications) : List BaselineRec :=
  (pubs.scientific_publications.flatMap fun pub =>
    let text := lowerStr (pubRawText pub)
    if text = "" then []
    else
      baselinePatterns.flatMap fun g =>
        g.pats.flatMap fun pat =>
          pubMatchBaselines g.gname g.gdesc
            ("Extracted from publication: " ++ pub.title.getD "Unknown")
            text.toList (findallToks pat text.toList)) ++
  (pubs.company_presentations.flatMap fun pres =>
    let text := lowerStr (presRawText pres)
    if text = "" then []
    else
      baselinePatterns.flatMap fun g =>
        g.pats.flatMap fun pat =>
          pubMatchBaselines g.gname g.gdesc
            ("Extracted from presentation: " ++ pres.title.getD "Unknown")
            text.toList (findallToks pat text.toList))

/-- `extract_publication_baseline_measures`: the named baseline tier (it
has no generic fallback) followed by deduplication. -/
def extract_publication_baseline_measures (publications : Option Publications) :
    List BaselineRec :=
  match publications with
  | none => []
  | some pubs => dedupBaselines (namedBaselineTier pubs)

/-! ## Raw trial documents and the structured-results extractor (tier 4.2) -/

/-- A measurement inside an outcome denomination (`groupId`, `value`); in
the raw JSON the value is a string. -/
structure RawMeasurement where
  groupId : String
  value : String
deriving DecidableEq, Repr

/-- A category of measurements. -/
structure RawCategory where
  measurementList : List RawMeasurement
deriving DecidableEq, Repr

/-- One entry of `outcomeDenomList`. -/
structure RawDenom where
  categoriesList : List RawCategory
deriving DecidableEq, Repr

/-- An outcome (or baseline) group (`id`, `title`). -/
structure RawGroup where
  id : String
  title : String
deriving DecidableEq, Repr

/-- One entry of `outcomeAnalysisList`. -/
structure RawAnalysis where
  pValue : String
deriving DecidableEq, Repr

/-- One structured outcome measure. -/
structure RawOutcome where
  title : String
  description : String
  timeFrame : String
  outcomeGroupList : List RawGroup
  outcomeDenomList : List RawDenom
  outcomeAnalysisList : List RawAnalysis
deriving DecidableEq, Repr

/-- One baseline parameter (`groupId`, `value`). -/
structure RawParam where
  groupId : String
  value : String
deriving DecidableEq, Repr

/-- One entry of `measureParamList`. -/
structure RawParamCat where
  paramList : List RawParam
deriving DecidableEq, Repr

/-- One structured baseline measure. -/
structure RawBaselineMeasure where
  title : String
  description : String
  measureParamList : List RawParamCat
deriving DecidableEq, Repr

/-- The `baselineData` section (`baselineDenomList` is fetched by the code
but never used). -/
structure RawBaselineData where
  baselineGroupList : List RawGroup
  baselineMeasureList : List RawBaselineMeasure
deriving DecidableEq, Repr

/-- The `resultsSection` of a raw document.  `baselineData = none` models
a missing/falsy section. -/
structure RawResults where
  outcomesMeasures : List RawOutcome
  baselineData : Option RawBaselineData
deriving DecidableEq, Repr

/-- The slice of `clinical_study` read by the literature tier. -/
structure StudyKey where
  nct_identifier : String
  sponsor : String
deriving DecidableEq, Repr

/-- The trial document handed to the extractors: the raw registry record
(for `resultsSection`) which, when the orchestrator is called on processed
data, may also carry a `clinical_study` block (absent keys are the
defaults). -/
structure TrialData where
  resultsSection : RawResults
  clinical_study : StudyKey
deriving DecidableEq, Repr

/-- The fixed intervention term set. -/
def interventionTerms : List String := ["intervention", "treatment", "experimental", "active"]

/-- The group-classification loop: a single pass that stores the id of a
group whose lower-cased title contains "placebo" in the placebo slot and
otherwise, if the title contains an intervention term, stores its id in
the intervention slot — each slot holding only the most recent such group.
Returns `(intervention_group, placebo_group)`. -/
def classifyGroups (gs : List RawGroup) : Option String × Option String :=
  gs.foldl
    (fun acc g =>
      let t := lowerStr g.title
      if hasSubS "placebo" t then (acc.1, some g.id)
      else if interventionTerms.any (fun w => hasSubS w t) then (some g.id, acc.2)
      else acc)
    (none, none)

/-- `arm = "intervention" if is_intervention else "placebo" if is_placebo
else "unknown"` with `is_intervention = (group_id == intervention_group)`
and `is_placebo = (group_id == placebo_group)`. -/
def armOf (igpg : Option String × Option String) (gid : String) : String :=
  if igpg.1 = some gid then "intervention"
  else if igpg.2 = some gid then "placebo"
  else "unknown"

/-- Zero-pad a number below 1000 to three digits. -/
def pad3 (n : Nat) : String :=
  if n < 10 then "00" ++ toString n
  else if n < 100 then "0" ++ toString n
  else toString n

/-- Python `f"{x:.3f}"`: fixed-point with three decimals, round half to
even (Python rounds the underlying binary double; the difference is
immaterial here). -/
def fmt3 (q : ℚ) : String :=
  let x := q * 1000
  let f : ℤ := ⌊x⌋
  let r : ℚ := x - (f : ℚ)
  let n : ℤ :=
    if r < 1 / 2 then f
    else if r > 1 / 2 then f + 1
    else if f % 2 = 0 then f else f + 1
  let sign := if n < 0 then "-" else ""
  let m := n.natAbs
  sign ++ toString (m / 1000) ++ "." ++ pad3 (m % 1000)

/-- The p-value loop of tier 4.2: every analysis with a non-empty
`pValue` overwrites the running value — formatted as `p=<value>` to three
decimals when it parses as a float, verbatim otherwise. -/
def lastPValue (l : List RawAnalysis) : Option String :=
  l.foldl
    (fun acc a =>
      if a.pValue = "" then acc
      else some (match pyFloat a.pValue with
        | some q => "p=" ++ fmt3 q
        | none => a.pValue))
    none

/-- Tier 4.2, `extract_real_endpoints` lines 252–322: walk the structured
outcome measures; classify groups; emit one endpoint per measurement with
a non-empty value and group id.  The measurement's raw string value is
stored in `average_value` unchanged, the bounds are `None`, and the
significance is the formatted p-value or "Unknown". -/
def structuredEndpoints (td : TrialData) : List EndpointRec :=
  td.resultsSection.outcomesMeasures.flatMap fun oc =>
    let igpg := classifyGroups oc.outcomeGroupList
    let pv := lastPValue oc.outcomeAnalysisList
    oc.outcomeDenomList.flatMap fun dn =>
      dn.categoriesList.flatMap fun cat =>
        cat.measurementList.flatMap fun ms =>
          if ms.value ≠ "" ∧ ms.groupId ≠ "" then
            [{ name := oc.title
               description :=
                 if oc.description = ""
                 then "Measurement of " ++ lowerStr oc.title ++ " in patients"
                 else oc.description
               timepoint := if oc.timeFrame = "" then "Unknown" else oc.timeFrame
               arm := armOf igpg ms.groupId
               average_value := .s ms.value
               upper_end := .null
               lower_end := .null
               statistical_significance := .s (pv.getD "Unknown")
               source := none
               context := none }]
          else []

/-- Tier 4.2 for baselines, `extract_real_baseline_measures` lines
916–970: like the endpoint variant, but the raw value is converted with
`float(...)` and the parameter is skipped when the conversion fails. -/
def structuredBaselines (td : TrialData) : List BaselineRec :=
  match td.resultsSection.baselineData with
  | none => []
  | some bd =>
    let igpg := classifyGroups bd.baselineGroupList
    bd.baselineMeasureList.flatMap fun m =>
      m.measureParamList.flatMap fun cat =>
        cat.paramList.flatMap fun p =>
          if p.value ≠ "" ∧ p.groupId ≠ "" then
            match pyFloat p.value with
            | some v =>
              [{ name := m.title
                 description :=
                   if m.description = ""
                   then "Baseline measurement of " ++ lowerStr m.title ++ " in patients"
                   else m.description
                 arm := armOf igpg p.groupId
                 average_value := .n v
                 upper_end := .null
                 lower_end := .null
                 source := none
                 context := none }]
            | none => []
          else []

/-! ## Literature fallback tier (tier 4.4)

The hand-curated `real_endpoints` / `real_baselines` tables of
`add_literature_based_endpoints` / `add_literature_based_baselines`,
keyed by registry identifier with a `DEFAULT` entry set. -/

/-- Build a literature endpoint entry (all carry a `source` key and no
`context` key). -/
def litEp (name desc tp arm : String) (avg hi lo : ℚ) (sig src : String) : EndpointRec :=
  { name := name, description := desc, timepoint := tp, arm := arm,
    average_value := .n avg, upper_end := .n hi, lower_end := .n lo,
    statistical_significance := .s sig, source := some (.s src), context := none }

/-- Build a literature baseline entry. -/
def litBm (name desc arm : String) (avg hi lo : ℚ) (src : String) : BaselineRec :=
  { name := name, description := desc, arm := arm,
    average_value := .n avg, upper_end := .n hi, lower_end := .n lo,
    source := some (.s src), context := none }

/-- The `DEFAULT` endpoint set (meta-analysis values). -/
def defaultLitEndpoints : List EndpointRec :=
  [litEp "PVR" "Change in pulmonary vascular resistance from baseline" "Week 16" "intervention"
     (-30) (-20) (-40) "p<0.001" "Literature-based PAH trial endpoints (meta-analysis)",
   litEp "PVR" "Change in pulmonary vascular resistance from baseline" "Week 16" "placebo"
     (-5) 5 (-15) "Reference arm" "Literature-based PAH trial endpoints (meta-analysis)",
   litEp "6MWD" "Change in 6-minute walk distance from baseline" "Week 12" "intervention"
     25 40 10 "p<0.01" "Literature-based PAH trial endpoints (meta-analysis)",
   litEp "6MWD" "Change in 6-minute walk distance from baseline" "Week 12" "placebo"
     6 15 (-3) "Reference arm" "Literature-based PAH trial endpoints (meta-analysis)"]

/-- The per-identifier literature endpoint table, in source order,
including the `DEFAULT` key. -/
def litEndpointTable : List (String × List EndpointRec) :=
  [("NCT00660179",
    [litEp "PVR" "Change in pulmonary vascular resistance from baseline" "Week 16" "intervention"
       (-368/10) (-274/10) (-442/10) "p<0.0001" "SERAPHIN hemodynamic substudy",
     litEp "PVR" "Change in pulmonary vascular resistance from baseline" "Week 16" "placebo"
       (-82/10) (-41/10) (-163/10) "Reference arm" "SERAPHIN hemodynamic substudy",
     litEp "6MWD" "Change in 6-minute walk distance from baseline" "Week 24" "intervention"
       22 (351/10) (89/10) "p=0.0078" "SERAPHIN primary results",
     litEp "6MWD" "Change in 6-minute walk distance from baseline" "Week 24" "placebo"
       (-8) (51/10) (-211/10) "Reference arm" "SERAPHIN primary results"]),
   ("NCT01106014",
    [litEp "PVR" "Change in pulmonary vascular resistance from baseline" "Week 17" "intervention"
       (-33) (-24) (-40) "p<0.0001" "GRIPHON results",
     litEp "PVR" "Change in pulmonary vascular resistance from baseline" "Week 17" "placebo"
       9 18 2 "Reference arm" "GRIPHON results",
     litEp "NT-proBNP" "Change in NT-proBNP from baseline" "Week 26" "intervention"
       (-123) (-80) (-166) "p<0.0001" "GRIPHON results",
     litEp "NT-proBNP" "Change in NT-proBNP from baseline" "Week 26" "placebo"
       48 92 15 "Reference arm" "GRIPHON results"]),
   ("NCT01178073",
    [litEp "6MWD" "Change in 6-minute walk distance from baseline" "Week 24" "intervention"
       49 59 39 "p<0.001" "AMBITION results (NEJM 2015)",
     litEp "6MWD" "Change in 6-minute walk distance from baseline" "Week 24" "placebo"
       24 34 14 "Reference arm" "AMBITION results (NEJM 2015)",
     litEp "NT-proBNP" "Change in NT-proBNP from baseline" "Week 24" "intervention"
       (-672/10) (-61) (-73) "p<0.001" "AMBITION results (NEJM 2015)",
     litEp "NT-proBNP" "Change in NT-proBNP from baseline" "Week 24" "placebo"
       (-50) (-42) (-58) "Reference arm" "AMBITION results (NEJM 2015)"]),
   ("NCT00810693",
    [litEp "6MWD" "Change in 6-minute walk distance from baseline" "Week 12" "intervention"
       30 42 18 "p<0.001" "PATENT results (NEJM 2013)",
     litEp "6MWD" "Change in 6-minute walk distance from baseline" "Week 12" "placebo"
       (-6) 6 (-18) "Reference arm" "PATENT results (NEJM 2013)",
     litEp "PVR" "Change in pulmonary vascular resistance from baseline" "Week 12" "intervention"
       (-223) (-186) (-260) "p<0.001" "PATENT results (NEJM 2013)",
     litEp "PVR" "Change in pulmonary vascular resistance from baseline" "Week 12" "placebo"
       (-89/10) 28 (-46) "Reference arm" "PATENT results (NEJM 2013)"]),
   ("DEFAULT", defaultLitEndpoints)]

/-- `add_literature_based_endpoints`: look the identifier up in the table,
falling back to the `DEFAULT` set.  (Every table entry already carries a
`source` key, so the source-tagging loop is the identity.) -/
def add_literature_based_endpoints (td : TrialData) : List EndpointRec :=
  let nct := td.clinical_study.nct_identifier
  match litEndpointTable.find? (fun kv => kv.1 = nct) with
  | some kv => kv.2
  | none => defaultLitEndpoints

/-- The `DEFAULT` baseline set (meta-analysis values). -/
def defaultLitBaselines : List BaselineRec :=
  [litBm "6MWD" "Baseline 6-Minute Walk Distance" "intervention" 360 375 345
     "Literature-based PAH trial baselines (meta-analysis)",
   litBm "6MWD" "Baseline 6-Minute Walk Distance" "placebo" 355 370 340
     "Literature-based PAH trial baselines (meta-analysis)",
   litBm "PVR" "Baseline Pulmonary Vascular Resistance" "intervention" 800 850 750
     "Literature-based PAH trial baselines (meta-analysis)",
   litBm "PVR" "Baseline Pulmonary Vascular Resistance" "placebo" 810 860 760
     "Literature-based PAH trial baselines (meta-analysis)",
   litBm "NT-proBNP" "Baseline NT-proBNP levels" "intervention" 950 1050 850
     "Literature-based PAH trial baselines (meta-analysis)",
   litBm "NT-proBNP" "Baseline NT-proBNP levels" "placebo" 940 1040 840
     "Literature-based PAH trial baselines (meta-analysis)"]

/-- The per-identifier literature baseline table, including `DEFAULT`. -/
def litBaselineTable : List (String × List BaselineRec) :=
  [("NCT00660179",
    [litBm "PVR" "Baseline Pulmonary Vascular Resistance" "intervention" 854 895 813
       "SERAPHIN trial baseline (NEJM 2013)",
     litBm "PVR" "Baseline Pulmonary Vascular Resistance" "placebo" 858 899 817
       "SERAPHIN trial baseline (NEJM 2013)",
     litBm "6MWD" "Baseline 6-Minute Walk Distance" "intervention" 363 378 348
       "SERAPHIN trial baseline (NEJM 2013)",
     litBm "6MWD" "Baseline 6-Minute Walk Distance" "placebo" 352 367 337
       "SERAPHIN trial baseline (NEJM 2013)"]),
   ("NCT01106014",
    [litBm "6MWD" "Baseline 6-Minute Walk Distance" "intervention" 358 366 350
       "GRIPHON trial baseline (NEJM 2015)",
     litBm "6MWD" "Baseline 6-Minute Walk Distance" "placebo" 348 356 340
       "GRIPHON trial baseline (NEJM 2015)",
     litBm "NT-proBNP" "Baseline NT-proBNP levels" "intervention" 912 1025 799
       "GRIPHON trial baseline (NEJM 2015)",
     litBm "NT-proBNP" "Baseline NT-proBNP levels" "placebo" 934 1047 821
       "GRIPHON trial baseline (NEJM 2015)"]),
   ("NCT00810693",
    [litBm "6MWD" "Baseline 6-Minute Walk Distance" "intervention" 361 372 350
       "PATENT trial baseline (NEJM 2013)",
     litBm "6MWD" "Baseline 6-Minute Walk Distance" "placebo" 368 379 357
       "PATENT trial baseline (NEJM 2013)",
     litBm "PVR" "Baseline Pulmonary Vascular Resistance" "intervention" 791 834 748
       "PATENT trial baseline (NEJM 2013)",
     litBm "PVR" "Baseline Pulmonary Vascular Resistance" "placebo" 834 887 781
       "PATENT trial baseline (NEJM 2013)"]),
   ("DEFAULT", defaultLitBaselines)]

/-- `add_literature_based_baselines`. -/
def add_literature_based_baselines (td : TrialData) : List BaselineRec :=
  let nct := td.clinical_study.nct_identifier
  match litBaselineTable.find? (fun kv => kv.1 = nct) with
  | some kv => kv.2
  | none => defaultLitBaselines

/-! ## Fallback-chain orchestrators (tier 4.5) -/

/-- `extract_real_endpoints`: structured results first; if empty and a
truthy publications argument was given, the free-text extractor; if still
empty, the literature tier (which is appended when non-empty). -/
def extract_real_endpoints (td : TrialData) (publications : Option Publications) :
    List EndpointRec :=
  let d1 := structuredEndpoints td
  let d2 :=
    if d1 = [] ∧ publications.isSome then extract_publication_endpoints publications else d1
  if d2 = [] then add_literature_based_endpoints td else d2

/-- `extract_real_baseline_measures`: the same three-tier chain for
baseline measures. -/
def extract_real_baseline_measures (td : TrialData) (publications : Option Publications) :
    List BaselineRec :=
  let d1 := structuredBaselines td
  let d2 :=
    if d1 = [] ∧ publications.isSome then extract_publication_baseline_measures publications
    else d1
  if d2 = [] then add_literature_based_baselines td else d2

/-! ## Alias normalizer (`endpoint_processor.py`) -/

/-- The `endpoint_aliases` table of `EndpointProcessor`, in dict
(insertion) order. -/
def endpoint_aliases : List (String × List String) :=
  [("pvr", ["pulmonary vascular resistance", "pvr", "pulmonary resistance"]),
   ("6mwd", ["6 minute walk distance", "6mwd", "6-minute walk", "six minute walk", "6 min walk"]),
   ("nt-probnp", ["nt-probnp", "nt probnp", "n-terminal pro-bnp", "brain natriuretic peptide"]),
   ("who fc", ["who functional class", "who fc", "functional class", "who class"]),
   ("time to clinical worsening",
    ["ttcw", "time to clinical worsening", "clinical worsening", "time to worsening"]),
   ("cardiac output", ["cardiac output", "co", "cardiac index", "ci"])]

/-- Does some alias of the category occur in the lower-cased name? -/
def aliasHits (nameLower : String) (kv : String × List String) : Bool :=
  kv.2.any (fun a => hasSubS a nameLower)

/-- `normalize_endpoint_name`: the upper-cased canonical label of the
first category with an alias occurring in the lower-cased input, else the
input with whitespace collapsed and stripped. -/
def normalize_endpoint_name (name : String) : String :=
  let nl := lowerStr name
  match endpoint_aliases.find? (aliasHits nl) with
  | some kv => upperStr kv.1
  | none => collapseWs name

/-! ## Serving layer (`src/api/main.py`)

The FastAPI routes declare `db: Session = Depends(get_db)`; FastAPI
resolves that dependency *before* the route handler runs, so an exception
raised inside `get_db` (its probe query `SELECT 1` failing on an
unreachable store, or the config file failing to load) aborts the request
with the `HTTPException(500)` that `get_db` raises — the handler body,
including its `except Exception` JSON fallback, never executes.  The
handler's own fallback fires only for exceptions raised by queries made
inside the handler after the probe succeeded.  The model below captures
these two failure sites with two flags. -/

/-- A stored per-trial JSON file as the serving layer sees it. -/
structure TrialFile where
  nct_identifier : String
  title : String
  sponsor : String
  endpoints : List EndpointRec
deriving DecidableEq, Repr

/-- The record store (the same records are visible to the relational
store and, via `json_trial_details`, to the JSON fallback). -/
structure Store where
  trials : List TrialFile
deriving DecidableEq, Repr

/-- One row of the compare-endpoint response. -/
structure CompareRow where
  nct_id : String
  study_title : String
  sponsor : String
  endpoint_name : String
  arm : String
  timepoint : String
  value : JVal
  upper_end : JVal
  lower_end : JVal
  p_value : JVal
deriving DecidableEq, Repr

/-- Build one response row from a trial and one of its endpoints (both
paths emit the same fields). -/
def mkCompareRow (t : TrialFile) (e : EndpointRec) : CompareRow :=
  { nct_id := t.nct_identifier, study_title := t.title, sponsor := t.sponsor,
    endpoint_name := e.name, arm := e.arm, timepoint := e.timepoint,
    value := e.average_value, upper_end := e.upper_end, lower_end := e.lower_end,
    p_value := e.statistical_significance }

/-- All endpoint rows with their owning trial (the relational `endpoints`
table joined back to `clinical_studies`). -/
def allEndpointRows (st : Store) : List (TrialFile × EndpointRec) :=
  st.trials.flatMap fun t => t.endpoints.map fun e => (t, e)

/-- The database path of `compare_endpoint` (lines 275–331): select the
endpoints whose name contains the query case-insensitively
(`ilike %name%`); when `include_placebo` is false keep only rows with
`arm == "intervention"`; then join each row back to its trial. -/
def dbCompareSelect (st : Store) (endpointName : String) (includePlacebo : Bool) :
    List CompareRow :=
  let eps := (allEndpointRows st).filter
    (fun te => hasSubS (lowerStr endpointName) (lowerStr te.2.name))
  let eps := if includePlacebo then eps else eps.filter (fun te => te.2.arm = "intervention")
  eps.map fun te => mkCompareRow te.1 te.2

/-- The JSON-fallback path of `compare_endpoint` (lines 278–300 and
339–360): loop over the stored files and their endpoints, keep name
matches, and skip a row only when `include_placebo` is false **and** the
arm is exactly `"placebo"`. -/
def jsonCompareSelect (st : Store) (endpointName : String) (includePlacebo : Bool) :
    List CompareRow :=
  st.trials.flatMap fun t =>
    t.endpoints.flatMap fun e =>
      if hasSubS (lowerStr endpointName) (lowerStr e.name) then
        if ¬ includePlacebo ∧ e.arm = "placebo" then []
        else [mkCompareRow t e]
      else []

/-- The outcome of a request as seen by the client. -/
inductive ApiResult (α : Type) where
  | ok (payload : α)
  | notFound (detail : String)
  | serverError (detail : String)
deriving DecidableEq, Repr

/-- The serving state: whether the relational store is reachable (the
`SELECT 1` probe in `get_db` succeeds), whether queries made later inside
a handler raise, and the data each side sees. -/
structure ApiState where
  dbReachable : Bool
  handlerQueryFails : Bool
  db : Store
  jsonDetails : Store
deriving Repr

/-- `get_db`: yields a session, or raises `HTTPException(500, "Database
connection error: ...")` when the probe fails (the config-load failure
path raises the analogous 500 and is subsumed by the same flag). -/
def get_db (st : ApiState) : ApiResult Unit :=
  if st.dbReachable then .ok () else .serverError "Database connection error"

/-- Look a trial up in the JSON file store. -/
def jsonLookup (st : ApiState) (nct : String) : Option TrialFile :=
  st.jsonDetails.trials.find? (fun t => t.nct_identifier = nct)

/-- `GET /trials/{nct_id}` (`get_trial_by_nct`): dependency first; then
the database lookup with JSON fallback on a missing row or an in-handler
query failure; 404 only when the record is in neither store.  (The
response payload is modelled as the stored record; the field-by-field
response assembly is not at issue in any claim.) -/
def get_trial_by_nct (st : ApiState) (nct : String) : ApiResult TrialFile :=
  match get_db st with
  | .serverError d => .serverError d
  | .notFound d => .notFound d
  | .ok _ =>
    if st.handlerQueryFails then
      match jsonLookup st nct with
      | some data => .ok data
      | none => .notFound "Trial not found"
    else
      match st.db.trials.find? (fun t => t.nct_identifier = nct) with
      | some trial => .ok trial
      | none =>
        match jsonLookup st nct with
        | some data => .ok data
        | none => .notFound "Trial not found"

/-- `GET /endpoints/{endpoint_name}` (`compare_endpoint`): dependency
first; the database path falls through to the JSON data when the name
matches no database row; 404 when the selected data is empty. -/
def compare_endpoint (st : ApiState) (endpointName : String) (includePlacebo : Bool) :
    ApiResult (List CompareRow) :=
  match get_db st with
  | .serverError d => .serverError d
  | .notFound d => .notFound d
  | .ok _ =>
    if st.handlerQueryFails then
      let rows := jsonCompareSelect st.jsonDetails endpointName includePlacebo
      if rows = [] then .notFound ("No data found for endpoint: " ++ endpointName)
      else .ok rows
    else
      let nameMatches := (allEndpointRows st.db).filter
        (fun te => hasSubS (lowerStr endpointName) (lowerStr te.2.name))
      if nameMatches = [] then
        let rows := jsonCompareSelect st.jsonDetails endpointName includePlacebo
        if rows = [] then .notFound ("No data found for endpoint: " ++ endpointName)
        else .ok rows
      else .ok (dbCompareSelect st.db endpointName includePlacebo)

/-! ## Lemmas about the deduplication pass -/

section DedupLemmas

variable {α : Type} {κ : Type} [DecidableEq κ]

/-- Membership in the groups after an insertion. -/
lemma mem_insGrouped_iff (k : κ) (a : α) (acc : List (κ × List α)) (x : α) :
    (∃ g ∈ insGrouped k a acc, x ∈ g.2) ↔ x = a ∨ ∃ g ∈ acc, x ∈ g.2 := by
  induction acc with
  | nil =>
    simp [insGrouped, eq_comm]
  | cons hd tl ih =>
    obtain ⟨k2, as⟩ := hd
    by_cases hk : k2 = k
    · subst hk
      simp only [insGrouped, if_pos rfl]
      constructor
      · rintro ⟨g, hg, hx⟩
        rcases List.mem_cons.mp hg with h | h
        · subst h
          rcases List.mem_append.mp hx with h2 | h2
          · exact Or.inr ⟨(k2, as), List.mem_cons_self _ _, h2⟩
          · exact Or.inl (List.mem_singleton.mp h2)
        · exact Or.inr ⟨g, List.mem_cons_of_mem _ h, hx⟩
      · rintro (h | ⟨g, hg, hx⟩)
        · exact ⟨(k2, as ++ [a]), List.mem_cons_self _ _, by simp [h]⟩
        · rcases List.mem_cons.mp hg with h2 | h2
          · subst h2
            exact ⟨(k2, as ++ [a]), List.mem_cons_self _ _, by simp [hx]⟩
          · exact ⟨g, List.mem_cons_of_mem _ h2, hx⟩
    · simp only [insGrouped, if_neg hk]
      constructor
      · rintro ⟨g, hg, hx⟩
        rcases List.mem_cons.mp hg with h | h
        · exact Or.inr ⟨g, h ▸ List.mem_cons_self _ _, hx⟩
        · rcases (ih).mp ⟨g, h, hx⟩ with h2 | ⟨g2, hg2, hx2⟩
          · exact Or.inl h2
          · exact Or.inr ⟨g2, List.mem_cons_of_mem _ hg2, hx2⟩
      · rintro (h | ⟨g, hg, hx⟩)
        · rcases (ih).mpr (Or.inl h) with ⟨g, hg, hx⟩
          exact ⟨g, List.mem_cons_of_mem _ hg, hx⟩
        · rcases List.mem_cons.mp hg with h2 | h2
          · exact ⟨(k2, as), h2 ▸ List.mem_cons_self _ _, h2 ▸ hx⟩
          · rcases (ih).mpr (Or.inr ⟨g, h2, hx⟩) with ⟨g2, hg2, hx2⟩
            exact ⟨g2, List.mem_cons_of_mem _ hg2, hx2⟩

/-- Every element found inside the grouping of `l` is an element of `l`. -/
lemma mem_groupPairs (key : α → κ) (l : List α) (x : α) :
    (∃ g ∈ groupPairs key l, x ∈ g.2) → x ∈ l := by
  suffices h : ∀ acc, (∃ g ∈ l.foldl (fun acc a => insGrouped (key a) a acc) acc, x ∈ g.2) →
      (∃ g ∈ acc, x ∈ g.2) ∨ x ∈ l by
    intro hx
    rcases h [] hx with ⟨g, hg, _⟩ | h2
    · exact absurd hg (List.not_mem_nil g)
    · exact h2
  induction l with
  | nil => intro acc h; exact Or.inl h
  | cons a l ih =>
    intro acc h
    rcases ih _ h with h2 | h2
    · rcases (mem_insGrouped_iff (key a) a acc x).mp h2 with h3 | h3
      · exact Or.inr (h3 ▸ List.mem_cons_self _ _)
      · exact Or.inl h3
    · exact Or.inr (List.mem_cons_of_mem _ h2)

/-- The max-count fold stays inside the candidate pool. -/
lemma foldl_best_mem (cnt : α → Nat) (b : α) (as2 : List α) :
    as2.foldl (fun b x => if cnt x > cnt b then x else b) b ∈ b :: as2 := by
  induction as2 generalizing b with
  | nil => exact List.mem_cons_self _ _
  | cons y ys ih =>
    simp only [List.foldl_cons]
    rcases List.mem_cons.mp (ih (if cnt y > cnt b then y else b)) with h2 | h2
    · rw [h2]
      by_cases hc : cnt y > cnt b
      · rw [if_pos hc]
        exact List.mem_cons_of_mem _ (List.mem_cons_self _ _)
      · rw [if_neg hc]
        exact List.mem_cons_self _ _
    · exact List.mem_cons_of_mem _ (List.mem_cons_of_mem _ h2)

/-- `pickBest` returns an element of its argument. -/
lemma pickBest_mem (cnt : α → Nat) (l : List α) (x : α) (h : pickBest cnt l = some x) :
    x ∈ l := by
  cases l with
  | nil => simp [pickBest] at h
  | cons a as =>
    simp only [pickBest, Option.some.injEq] at h
    rw [← h]
    exact foldl_best_mem cnt a as

/-- Deduplication only keeps elements of its input. -/
lemma mem_dedupBy (key : α → κ) (cnt : α → Nat) (l : List α) (x : α)
    (h : x ∈ dedupBy key cnt l) : x ∈ l := by
  rcases List.mem_filterMap.mp h with ⟨g, hg, hpick⟩
  exact mem_groupPairs key l x ⟨g, hg, pickBest_mem cnt g.2 x hpick⟩

/-- Inserting a fresh key appends a new singleton group. -/
lemma insGrouped_fresh (k : κ) (a : α) (acc : List (κ × List α))
    (h : k ∉ acc.map Prod.fst) : insGrouped k a acc = acc ++ [(k, [a])] := by
  induction acc with
  | nil => rfl
  | cons hd tl ih =>
    obtain ⟨k2, as⟩ := hd
    simp only [List.map_cons, List.mem_cons] at h
    push_neg at h
    simp only [insGrouped, if_neg (Ne.symm h.1), List.cons_append, List.cons.injEq, true_and]
    exact ih h.2

/-- The key set after an insertion. -/
lemma map_fst_insGrouped (k : κ) (a : α) (acc : List (κ × List α)) :
    (insGrouped k a acc).map Prod.fst =
      if k ∈ acc.map Prod.fst then acc.map Prod.fst else acc.map Prod.fst ++ [k] := by
  induction acc with
  | nil => simp [insGrouped]
  | cons hd tl ih =>
    obtain ⟨k2, as⟩ := hd
    by_cases hk : k2 = k
    · subst hk
      simp [insGrouped]
    · simp only [insGrouped, if_neg hk, List.map_cons, ih, List.mem_cons]
      by_cases hmem : k ∈ tl.map Prod.fst
      · simp [hmem, Ne.symm hk]
      · simp [hmem, Ne.symm hk]

/-- Insertion preserves the group invariants when the inserted element
carries the inserted key. -/
lemma insGrouped_good (key : α → κ) (k : κ) (a : α) (hk : key a = k) :
    ∀ (acc : List (κ × List α)),
      (∀ g ∈ acc, g.2 ≠ [] ∧ ∀ x ∈ g.2, key x = g.1) →
      ∀ g ∈ insGrouped k a acc, g.2 ≠ [] ∧ ∀ x ∈ g.2, key x = g.1 := by
  intro acc
  induction acc with
  | nil =>
    intro _ g hg
    simp only [insGrouped, List.mem_singleton] at hg
    subst hg
    refine ⟨by simp, ?_⟩
    intro x hx
    simp only [List.mem_singleton] at hx
    simp [hx, hk]
  | cons hd tl ih =>
    obtain ⟨k2, as⟩ := hd
    intro hacc g hg
    by_cases hfst : k2 = k
    · subst hfst
      rw [show insGrouped k2 a ((k2, as) :: tl) = (k2, as ++ [a]) :: tl from by
        simp [insGrouped]] at hg
      rcases List.mem_cons.mp hg with rfl | hg
      · refine ⟨by simp, ?_⟩
        intro x hx
        rcases List.mem_append.mp hx with hx | hx
        · exact (hacc (k2, as) (List.mem_cons_self _ _)).2 x hx
        · simp only [List.mem_singleton] at hx
          simp [hx, hk]
      · exact hacc g (List.mem_cons_of_mem _ hg)
    · rw [show insGrouped k a ((k2, as) :: tl) = (k2, as) :: insGrouped k a tl from by
        simp [insGrouped, hfst]] at hg
      rcases List.mem_cons.mp hg with rfl | hg
      · exact hacc (k2, as) (List.mem_cons_self _ _)
      · exact ih (fun g2 hg2 => hacc g2 (List.mem_cons_of_mem _ hg2)) g hg

/-- Group contents are non-empty and carry the group key. -/
lemma groupPairs_good (key : α → κ) (l : List α) :
    ∀ g ∈ groupPairs key l, g.2 ≠ [] ∧ ∀ x ∈ g.2, key x = g.1 := by
  suffices h : ∀ acc, (∀ g ∈ acc, g.2 ≠ [] ∧ ∀ x ∈ g.2, key x = g.1) →
      ∀ g ∈ l.foldl (fun acc a => insGrouped (key a) a acc) acc,
        g.2 ≠ [] ∧ ∀ x ∈ g.2, key x = g.1 by
    exact h [] (by intro g hg; exact absurd hg (List.not_mem_nil g))
  induction l with
  | nil => intro acc hacc; exact hacc
  | cons a l ih =>
    intro acc hacc
    exact ih _ (insGrouped_good key (key a) a rfl acc hacc)

/-- The grouping's keys are pairwise distinct. -/
lemma groupPairs_nodup_keys (key : α → κ) (l : List α) :
    ((groupPairs key l).map Prod.fst).Nodup := by
  suffices h : ∀ acc, (acc.map Prod.fst).Nodup →
      ((l.foldl (fun acc a => insGrouped (key a) a acc) acc).map Prod.fst).Nodup by
    exact h [] List.nodup_nil
  induction l with
  | nil => intro acc hacc; exact hacc
  | cons a l ih =>
    intro acc hacc
    refine ih _ ?_
    rw [map_fst_insGrouped]
    by_cases hmem : key a ∈ acc.map Prod.fst
    · simpa [hmem] using hacc
    · simp only [if_neg hmem]
      exact List.Nodup.append hacc (List.nodup_singleton _)
        (by simpa [List.disjoint_singleton] using hmem)

/-- Grouping a list whose keys are already pairwise distinct yields one
singleton group per element, in order. -/
lemma groupPairs_of_nodup (key : α → κ) (l : List α) (h : (l.map key).Nodup) :
    groupPairs key l = l.map (fun a => (key a, [a])) := by
  suffices hs : ∀ acc, ((acc.map Prod.fst ++ l.map key)).Nodup →
      l.foldl (fun acc a => insGrouped (key a) a acc) acc =
        acc ++ l.map (fun a => (key a, [a])) by
    simpa using hs [] (by simpa using h)
  clear h
  induction l with
  | nil => intro acc _; simp
  | cons a l ih =>
    intro acc hacc
    have hfresh : key a ∉ acc.map Prod.fst := by
      intro hmem
      have := (List.nodup_append.mp hacc).2.2
      exact this hmem (List.mem_cons_self _ _)
    simp only [List.foldl_cons, insGrouped_fresh _ _ _ hfresh, List.map_cons,
      List.cons_append]
    have hacc2 : (((acc ++ [(key a, [a])]).map Prod.fst) ++ l.map key).Nodup := by
      simpa [List.append_assoc] using hacc
    rw [ih (acc ++ [(key a, [a])]) hacc2, List.append_assoc]
    rfl

/-- `pickBest` succeeds on a non-empty list. -/
lemma pickBest_isSome (cnt : α → Nat) (l : List α) (h : l ≠ []) :
    ∃ x, pickBest cnt l = some x := by
  cases l with
  | nil => exact absurd rfl h
  | cons a as => exact ⟨_, rfl⟩

/-- Picking one element from each good group recovers the group keys. -/
lemma filterMap_pick_keys (key : α → κ) (cnt : α → Nat) (gs : List (κ × List α))
    (hgood : ∀ g ∈ gs, g.2 ≠ [] ∧ ∀ x ∈ g.2, key x = g.1) :
    (gs.filterMap (fun g => pickBest cnt g.2)).map key = gs.map Prod.fst := by
  induction gs with
  | nil => rfl
  | cons g gs ih =>
    obtain ⟨hne, hkeys⟩ := hgood g (List.mem_cons_self _ _)
    obtain ⟨x, hx⟩ := pickBest_isSome cnt g.2 hne
    simp only [List.filterMap_cons, hx, List.map_cons]
    rw [ih (fun g2 hg2 => hgood g2 (List.mem_cons_of_mem _ hg2))]
    rw [hkeys x (pickBest_mem cnt g.2 x hx)]

/-- The keys of the deduplicated list are the grouping's keys. -/
lemma map_key_dedupBy (key : α → κ) (cnt : α → Nat) (l : List α) :
    (dedupBy key cnt l).map key = (groupPairs key l).map Prod.fst :=
  filterMap_pick_keys key cnt (groupPairs key l) (groupPairs_good key l)

/-- The deduplicated list has pairwise-distinct `(name, arm)`-style keys. -/
lemma nodup_map_key_dedupBy (key : α → κ) (cnt : α → Nat) (l : List α) :
    ((dedupBy key cnt l).map key).Nodup := by
  rw [map_key_dedupBy]
  exact groupPairs_nodup_keys key l

/-- Deduplication is idempotent. -/
lemma dedupBy_idem (key : α → κ) (cnt : α → Nat) (l : List α) :
    dedupBy key cnt (dedupBy key cnt l) = dedupBy key cnt l := by
  have hnodup := nodup_map_key_dedupBy key cnt l
  have h2 := groupPairs_of_nodup key (dedupBy key cnt l) hnodup
  show (groupPairs key (dedupBy key cnt l)).filterMap (fun g => pickBest cnt g.2)
      = dedupBy key cnt l
  rw [h2, List.filterMap_map]
  have hid : ∀ (ds : List α),
      ds.filterMap ((fun g : κ × List α => pickBest cnt g.2) ∘ fun a => (key a, [a])) = ds := by
    intro ds
    induction ds with
    | nil => rfl
    | cons d ds ih =>
      have hd : ((fun g : κ × List α => pickBest cnt g.2) ∘ fun a => (key a, [a])) d
          = some d := rfl
      simp only [List.filterMap_cons, hd, ih]
  exact hid _

end DedupLemmas

/-! ## Characterization of the group-classification pass (for C5) -/

/-- Is a group title a placebo title? -/
def isPlaceboTitle (g : RawGroup) : Bool := hasSubS "placebo" (lowerStr g.title)

/-- Does a group title contain an intervention term (and not "placebo",
which takes priority in the classification pass)? -/
def isInterventionTitle (g : RawGroup) : Bool :=
  !isPlaceboTitle g && interventionTerms.any (fun w => hasSubS w (lowerStr g.title))

/-- The id of the *last* listed group whose title contains "placebo". -/
def lastPlaceboId (gs : List RawGroup) : Option String :=
  (gs.reverse.find? isPlaceboTitle).map (fun g => g.id)

/-- The id of the *last* listed group whose title contains an intervention
term and not "placebo". -/
def lastInterventionId (gs : List RawGroup) : Option String :=
  (gs.reverse.find? isInterventionTitle).map (fun g => g.id)

/-- The single-slot classification pass retains exactly the last matching
group id of each kind. -/
lemma classifyGroups_eq_last (gs : List RawGroup) :
    classifyGroups gs = (lastInterventionId gs, lastPlaceboId gs) := by
  induction gs using List.reverseRecOn with
  | nil => rfl
  | append_singleton gs g ih =>
    unfold classifyGroups at ih ⊢
    rw [List.foldl_append, ih]
    unfold lastInterventionId lastPlaceboId
    rw [List.reverse_append]
    simp only [List.reverse_singleton, List.singleton_append, List.find?_cons]
    by_cases hp : isPlaceboTitle g
    · have hi : isInterventionTitle g = false := by
        simp [isInterventionTitle, hp]
      simp only [List.foldl_cons, List.foldl_nil]
      rw [show (hasSubS "placebo" (lowerStr g.title)) = true from hp]
      simp [hp, hi]
    · by_cases ht : interventionTerms.any (fun w => hasSubS w (lowerStr g.title))
      · have hi : isInterventionTitle g = true := by
          simp [isInterventionTitle, hp, ht]
        simp only [List.foldl_cons, List.foldl_nil]
        rw [show (hasSubS "placebo" (lowerStr g.title)) = false from
          Bool.not_eq_true _ ▸ hp]
        simp [hp, hi, ht]
      · have hi : isInterventionTitle g = false := by
          simp [isInterventionTitle, hp, ht]
        simp only [List.foldl_cons, List.foldl_nil]
        rw [show (hasSubS "placebo" (lowerStr g.title)) = false from
          Bool.not_eq_true _ ▸ hp]
        simp [hp, hi, ht]

/-! ## First-match characterization of `find?` (for C6) -/

/-- `List.find?` returns the first hit: either nothing matches, or there
is an index whose element matches, every earlier element fails, and the
result is that element. -/
lemma find?_first_spec {α : Type} (p : α → Bool) (l : List α) :
    (l.find? p = none ∧ ∀ x ∈ l, p x = false) ∨
    (∃ i, ∃ h : i < l.length, p (l.get ⟨i, h⟩) = true ∧
      (∀ j, ∀ hj : j < l.length, j < i → p (l.get ⟨j, hj⟩) = false) ∧
      l.find? p = some (l.get ⟨i, h⟩)) := by
  induction l with
  | nil =>
    left
    exact ⟨rfl, by simp⟩
  | cons a l ih =>
    by_cases hp : p a
    · right
      refine ⟨0, by simp, by simpa using hp, ?_, ?_⟩
      · intro j hj hj0
        exact absurd hj0 (Nat.not_lt_zero j)
      · simp [List.find?_cons, hp]
    · have hpa : p a = false := Bool.not_eq_true _ ▸ hp
      rcases ih with ⟨hn, hall⟩ | ⟨i, h, hpi, hbefore, hfind⟩
      · left
        constructor
        · simp [List.find?_cons, hpa, hn]
        · intro x hx
          rcases List.mem_cons.mp hx with rfl | hx
          · exact hpa
          · exact hall x hx
      · right
        refine ⟨i + 1, Nat.succ_lt_succ h, by simpa using hpi, ?_, ?_⟩
        · intro j hj hji
          cases j with
          | zero => simpa using hpa
          | succ j2 =>
            have hj2 : j2 < l.length := Nat.lt_of_succ_lt_succ hj
            have := hbefore j2 hj2 (Nat.lt_of_succ_lt_succ hji)
            simpa using this
        · simp only [List.find?_cons, hpa]
          simpa using hfind

/-! ## Lemmas about the two compare-endpoint selection paths (for C8) -/

/-- Does an endpoint's name match the query (both paths use the same
case-insensitive substring test)? -/
def epNameMatches (endpointName : String) (e : EndpointRec) : Bool :=
  hasSubS (lowerStr endpointName) (lowerStr e.name)

/-- The JSON path written as one filter over the joined rows. -/
lemma jsonCompareSelect_eq_filter (trials : List TrialFile) (nm : String) (ip : Bool) :
    jsonCompareSelect ⟨trials⟩ nm ip =
      ((allEndpointRows ⟨trials⟩).filter
        (fun te => epNameMatches nm te.2 && (ip || !(te.2.arm = "placebo" : Bool)))).map
        (fun te => mkCompareRow te.1 te.2) := by
  induction trials with
  | nil => rfl
  | cons t ts ih =>
    have hinner : ∀ (es : List EndpointRec),
        (es.flatMap fun e =>
          if hasSubS (lowerStr nm) (lowerStr e.name) then
            if ¬ ip ∧ e.arm = "placebo" then [] else [mkCompareRow t e]
          else []) =
        ((es.map (fun e => (t, e))).filter
          (fun te => epNameMatches nm te.2 && (ip || !(te.2.arm = "placebo" : Bool)))).map
          (fun te => mkCompareRow te.1 te.2) := by
      intro es
      induction es with
      | nil => rfl
      | cons e es ihe =>
        simp only [List.flatMap_cons, List.map_cons, List.filter_cons]
        by_cases hname : hasSubS (lowerStr nm) (lowerStr e.name)
        · by_cases hskip : ¬ ip ∧ e.arm = "placebo"
          · have hb : (epNameMatches nm (t, e).2 &&
                (ip || !((t, e).2.arm = "placebo" : Bool))) = false := by
              simp only [epNameMatches]
              rcases hskip with ⟨hip, harm⟩
              simp [hname, harm, Bool.not_eq_true _ ▸ hip]
            rw [if_pos hname, if_pos hskip, hb]
            simpa using ihe
          · have hb : (epNameMatches nm (t, e).2 &&
                (ip || !((t, e).2.arm = "placebo" : Bool))) = true := by
              simp only [epNameMatches]
              cases hip : ip with
              | true => simp [hname]
              | false =>
                have harm : e.arm ≠ "placebo" := by
                  intro harm
                  exact hskip ⟨by simp [hip], harm⟩
                simp [hname, harm]
            rw [if_pos hname, if_neg hskip, hb]
            simp only [if_pos rfl, List.map_cons, List.singleton_append]
            rw [ihe]
            rfl
        · have hb : (epNameMatches nm (t, e).2 &&
              (ip || !((t, e).2.arm = "placebo" : Bool))) = false := by
            simp [epNameMatches, Bool.not_eq_true _ ▸ hname]
          rw [if_neg hname, hb]
          simpa using ihe
    show (t.endpoints.flatMap fun e =>
        if hasSubS (lowerStr nm) (lowerStr e.name) then
          if ¬ ip ∧ e.arm = "placebo" then [] else [mkCompareRow t e]
        else []) ++ jsonCompareSelect ⟨ts⟩ nm ip = _
    rw [hinner t.endpoints, ih]
    show _ = ((t.endpoints.map (fun e => (t, e)) ++ allEndpointRows ⟨ts⟩).filter _).map _
    rw [List.filter_append, List.map_append]

/-! ## Shape of the records emitted by the free-text tiers (for C1, C10) -/

/-- Everything emitted by the per-match endpoint body: a numeric average,
null bounds, an arm decided by the placebo terms of the *stored* context
window, and no surviving baseline-term context. -/
lemma mem_pubMatchEndpoints {gname gdesc srcLabel : String} {textL : List Char}
    {ms : List (List Char)} {e : EndpointRec}
    (h : e ∈ pubMatchEndpoints gname gdesc srcLabel textL ms) :
    ∃ (v : ℚ) (ctx : List Char),
      containsAnyL ctx endpointSkipTerms = false ∧
      e.name = gname ∧
      e.average_value = .n v ∧ e.upper_end = .null ∧ e.lower_end = .null ∧
      e.arm = (if containsAnyL ctx placeboTerms then "placebo" else "intervention") ∧
      e.context = some (.s (String.mk ctx)) := by
  rcases List.mem_flatMap.mp h with ⟨m, _, he⟩
  split at he
  · exact absurd he (List.not_mem_nil e)
  · rename_i v hv
    dsimp only at he
    split at he
    · exact absurd he (List.not_mem_nil e)
    · rename_i hskip
      rcases List.mem_singleton.mp he with rfl
      exact ⟨v, _, Bool.not_eq_true _ ▸ hskip, rfl, rfl, rfl, rfl, rfl, rfl⟩

/-- Everything emitted by the per-match baseline body. -/
lemma mem_pubMatchBaselines {gname gdesc srcLabel : String} {textL : List Char}
    {ms : List (List Char)} {b : BaselineRec}
    (h : b ∈ pubMatchBaselines gname gdesc srcLabel textL ms) :
    ∃ (v : ℚ) (ctx : List Char),
      b.name = gname ∧
      b.average_value = .n v ∧ b.upper_end = .null ∧ b.lower_end = .null ∧
      b.arm = (if containsAnyL ctx placeboTerms then "placebo" else "intervention") ∧
      b.context = some (.s (String.mk ctx)) := by
  rcases List.mem_flatMap.mp h with ⟨m, _, hb⟩
  split at hb
  · exact absurd hb (List.not_mem_nil b)
  · rename_i v hv
    dsimp only at hb
    split at hb
    · exact absurd hb (List.not_mem_nil b)
    · rcases List.mem_singleton.mp hb with rfl
      exact ⟨v, _, rfl, rfl, rfl, rfl, rfl, rfl⟩

/-- Everything emitted by the named endpoint tier comes from the
per-match body. -/
lemma mem_namedEndpointTier {pubs : Publications} {e : EndpointRec}
    (h : e ∈ namedEndpointTier pubs) :
    ∃ (gname gdesc srcLabel : String) (textL : List Char) (ms : List (List Char)),
      e ∈ pubMatchEndpoints gname gdesc srcLabel textL ms := by
  rcases List.mem_append.mp h with h2 | h2
  · rcases List.mem_flatMap.mp h2 with ⟨pub, _, h3⟩
    by_cases ht : lowerStr (pubRawText pub) = ""
    · rw [if_pos ht] at h3
      exact absurd h3 (List.not_mem_nil e)
    · rw [if_neg ht] at h3
      rcases List.mem_flatMap.mp h3 with ⟨g, _, h4⟩
      rcases List.mem_flatMap.mp h4 with ⟨pat, _, h5⟩
      exact ⟨_, _, _, _, _, h5⟩
  · rcases List.mem_flatMap.mp h2 with ⟨pres, _, h3⟩
    by_cases ht : lowerStr (presRawText pres) = ""
    · rw [if_pos ht] at h3
      exact absurd h3 (List.not_mem_nil e)
    · rw [if_neg ht] at h3
      rcases List.mem_flatMap.mp h3 with ⟨g, _, h4⟩
      rcases List.mem_flatMap.mp h4 with ⟨pat, _, h5⟩
      exact ⟨_, _, _, _, _, h5⟩

/-- Everything emitted by the named baseline tier comes from the
per-match body. -/
lemma mem_namedBaselineTier {pubs : Publications} {b : BaselineRec}
    (h : b ∈ namedBaselineTier pubs) :
    ∃ (gname gdesc srcLabel : String) (textL : List Char) (ms : List (List Char)),
      b ∈ pubMatchBaselines gname gdesc srcLabel textL ms := by
  rcases List.mem_append.mp h with h2 | h2
  · rcases List.mem_flatMap.mp h2 with ⟨pub, _, h3⟩
    by_cases ht : lowerStr (pubRawText pub) = ""
    · rw [if_pos ht] at h3
      exact absurd h3 (List.not_mem_nil b)
    · rw [if_neg ht] at h3
      rcases List.mem_flatMap.mp h3 with ⟨g, _, h4⟩
      rcases List.mem_flatMap.mp h4 with ⟨pat, _, h5⟩
      exact ⟨_, _, _, _, _, h5⟩
  · rcases List.mem_flatMap.mp h2 with ⟨pres, _, h3⟩
    by_cases ht : lowerStr (presRawText pres) = ""
    · rw [if_pos ht] at h3
      exact absurd h3 (List.not_mem_nil b)
    · rw [if_neg ht] at h3
      rcases List.mem_flatMap.mp h3 with ⟨g, _, h4⟩
      rcases List.mem_flatMap.mp h4 with ⟨pat, _, h5⟩
      exact ⟨_, _, _, _, _, h5⟩

/-- Shape of the generic last-resort entries. -/
lemma mem_genericEndpointTier {scPubs : List PubDoc} {e : EndpointRec}
    (h : e ∈ genericEndpointTier scPubs) :
    ∃ v : ℚ,
      e.name = "Endpoint" ∧ e.arm = "Not specified" ∧
      e.average_value = .n v ∧ e.upper_end = .null ∧ e.lower_end = .null := by
  rcases List.mem_flatMap.mp h with ⟨pub, _, h2⟩
  by_cases ht : lowerStr (pubRawText pub) = ""
  · rw [if_pos ht] at h2
    exact absurd h2 (List.not_mem_nil e)
  · rw [if_neg ht] at h2
    rcases List.mem_flatMap.mp h2 with ⟨gp, _, h3⟩
    rcases List.mem_flatMap.mp h3 with ⟨m, _, h4⟩
    cases hv : pyFloat (String.mk m) with
    | none =>
      rw [hv] at h4
      exact absurd h4 (List.not_mem_nil e)
    | some v =>
      rw [hv] at h4
      rcases List.mem_singleton.mp h4 with rfl
      exact ⟨v, rfl, rfl, rfl, rfl, rfl⟩

/-! ## Shape of the records emitted by the structured tier (for C1, C5) -/

/-- `armOf` can only answer one of the three enumeration values. -/
lemma armOf_mem_three (igpg : Option String × Option String) (gid : String) :
    armOf igpg gid = "intervention" ∨ armOf igpg gid = "placebo" ∨
      armOf igpg gid = "unknown" := by
  unfold armOf
  by_cases h1 : igpg.1 = some gid
  · simp [h1]
  · by_cases h2 : igpg.2 = some gid
    · simp [h1, h2]
    · simp [h1, h2]

/-- Every structured endpoint stores the raw measurement string in
`average_value`, has null bounds, and an arm produced by `armOf` on the
classified groups of its outcome. -/
lemma mem_structuredEndpoints {td : TrialData} {e : EndpointRec}
    (h : e ∈ structuredEndpoints td) :
    ∃ (oc : RawOutcome) (ms : RawMeasurement),
      oc ∈ td.resultsSection.outcomesMeasures ∧
      ms.value ≠ "" ∧
      e.average_value = .s ms.value ∧ e.upper_end = .null ∧ e.lower_end = .null ∧
      e.arm = armOf (classifyGroups oc.outcomeGroupList) ms.groupId := by
  rcases List.mem_flatMap.mp h with ⟨oc, hoc, h2⟩
  rcases List.mem_flatMap.mp h2 with ⟨dn, _, h3⟩
  rcases List.mem_flatMap.mp h3 with ⟨cat, _, h4⟩
  rcases List.mem_flatMap.mp h4 with ⟨ms, _, h5⟩
  split at h5
  · rename_i hcond
    rcases List.mem_singleton.mp h5 with rfl
    exact ⟨oc, ms, hoc, hcond.1, rfl, rfl, rfl, rfl⟩
  · exact absurd h5 (List.not_mem_nil e)

/-- Every structured baseline measure carries a successfully parsed float
and null bounds. -/
lemma mem_structuredBaselines {td : TrialData} {b : BaselineRec}
    (h : b ∈ structuredBaselines td) :
    ∃ v : ℚ,
      b.average_value = .n v ∧ b.upper_end = .null ∧ b.lower_end = .null := by
  unfold structuredBaselines at h
  split at h
  · exact absurd h (List.not_mem_nil b)
  · rename_i bd hbd
    rcases List.mem_flatMap.mp h with ⟨m, _, h2⟩
    rcases List.mem_flatMap.mp h2 with ⟨cat, _, h3⟩
    rcases List.mem_flatMap.mp h3 with ⟨p, _, h4⟩
    split at h4
    · split at h4
      · rename_i v hv
        rcases List.mem_singleton.mp h4 with rfl
        exact ⟨v, rfl, rfl, rfl⟩
      · exact absurd h4 (List.not_mem_nil b)
    · exact absurd h4 (List.not_mem_nil b)

/-! ## Concrete documents used by the counterexamples and witnesses -/

/-- A structured document whose single outcome measurement carries the
non-numeric value string "NR". -/
def nrDoc : TrialData :=
  { resultsSection :=
      { outcomesMeasures :=
          [{ title := "PVR", description := "", timeFrame := "Week 16",
             outcomeGroupList := [⟨"G1", "Treatment"⟩],
             outcomeDenomList := [⟨[⟨[⟨"G1", "NR"⟩]⟩]⟩],
             outcomeAnalysisList := [] }],
        baselineData := none },
    clinical_study := ⟨"", ""⟩ }

/-- The raw document of the C4 scenario: one outcome titled "6-Minute Walk
Distance", a group "Experimental Arm" carrying "22.0" and a group
"Placebo" carrying "-8.0". -/
def walkDoc : TrialData :=
  { resultsSection :=
      { outcomesMeasures :=
          [{ title := "6-Minute Walk Distance", description := "", timeFrame := "",
             outcomeGroupList := [⟨"OG000", "Experimental Arm"⟩, ⟨"OG001", "Placebo"⟩],
             outcomeDenomList := [⟨[⟨[⟨"OG000", "22.0"⟩, ⟨"OG001", "-8.0"⟩]⟩]⟩],
             outcomeAnalysisList := [] }],
        baselineData := none },
    clinical_study := ⟨"", ""⟩ }

/-- A structured document with *two* groups whose titles contain the
intervention term "treatment", with the measurement attached to the
first. -/
def twoTreatmentDoc : TrialData :=
  { resultsSection :=
      { outcomesMeasures :=
          [{ title := "PVR", description := "", timeFrame := "",
             outcomeGroupList := [⟨"G1", "Treatment A"⟩, ⟨"G2", "Treatment B"⟩],
             outcomeDenomList := [⟨[⟨[⟨"G1", "5"⟩]⟩]⟩],
             outcomeAnalysisList := [] }],
        baselineData := none },
    clinical_study := ⟨"", ""⟩ }

/-- The publication of the C3 scenario. -/
def c3pub : PubDoc :=
  { title := some "Macitentan study",
    full_text := some
      "...PVR decreased by 36.8% (p<0.0001) in the treatment group vs baseline 854...",
    snippet := none }

/-- The publications argument of the C3 scenario. -/
def c3pubs : Publications :=
  { scientific_publications := [c3pub], company_presentations := [] }

/-- The single generic last-resort entry that the C3 text actually
produces. -/
def c3genericRec : EndpointRec :=
  { name := "Endpoint"
    description := "Percent decrease - extracted from publication"
    timepoint := "Not specified"
    arm := "Not specified"
    average_value := .n (mkRat 184 5)
    upper_end := .null
    lower_end := .null
    statistical_significance := .s "Not specified"
    source := some (.s "Extracted from publication: Macitentan study")
    context := some (.s
      "...pvr decreased by 36.8% (p<0.0001) in the treatment group vs baseline 854...") }

/-- A trial document with an identifier outside the literature tables and
no structured results (for the C2 witness). -/
def unknownTrialDoc : TrialData :=
  { resultsSection := { outcomesMeasures := [], baselineData := none },
    clinical_study := ⟨"NCT99999999", ""⟩ }

/-! ## The claims -/

/-- **C1, counterexample.**  The claim says records emitted by the
structured-results extractor carry `average_value` as a finite float or
null, with non-numeric source values coerced to null.  On a document
whose measurement value is the non-numeric string "NR", the extractor
emits an Endpoint whose `average_value` is the string "NR" itself —
`float("NR")` would fail (`pyFloat` returns `none`), and no coercion to
null happens. -/
theorem C1_counterexample :
    (structuredEndpoints nrDoc).map (fun e => e.average_value) = [JVal.s "NR"] ∧
    pyFloat "NR" = none ∧
    JVal.s "NR" ≠ JVal.null := by
  refine ⟨by decide, by decide, by decide⟩

/-- **C1, amended.**  Every Endpoint and BaselineMeasure emitted by the
free-text extractor (tier 4.3), and every BaselineMeasure emitted by the
structured-results extractor (tier 4.2), carries `average_value` as a
(finite) float with `upper_end` and `lower_end` null; non-numeric source
values are skipped there.  Endpoint records emitted by tier 4.2, however,
carry `average_value` as the verbatim source string — non-numeric strings
are propagated, not coerced to null. -/
theorem C1_amended_numeric_fields (pubs : Option Publications) (td : TrialData) :
    (extract_publication_endpoints pubs).Forall
      (fun e => e.average_value.isNum = true ∧ e.upper_end = .null ∧ e.lower_end = .null) ∧
    (extract_publication_baseline_measures pubs).Forall
      (fun b => b.average_value.isNum = true ∧ b.upper_end = .null ∧ b.lower_end = .null) ∧
    (structuredBaselines td).Forall
      (fun b => b.average_value.isNum = true ∧ b.upper_end = .null ∧ b.lower_end = .null) ∧
    (structuredEndpoints td).Forall
      (fun e => e.average_value.isStr = true ∧ e.upper_end = .null ∧ e.lower_end = .null) := by
  refine ⟨?_, ?_, ?_, ?_⟩
  · rw [List.forall_iff_forall_mem]
    intro e he
    cases pubs with
    | none => exact absurd he (List.not_mem_nil e)
    | some ps =>
      have hmem := mem_dedupBy _ _ _ _ he
      by_cases hcond : namedEndpointTier ps = [] ∧
          (ps.scientific_publications ≠ [] ∨ ps.company_presentations ≠ [])
      · rw [if_pos hcond] at hmem
        rcases mem_genericEndpointTier hmem with ⟨v, _, _, havg, hup, hlo⟩
        exact ⟨by rw [havg]; rfl, hup, hlo⟩
      · rw [if_neg hcond] at hmem
        rcases mem_namedEndpointTier hmem with ⟨_, _, _, _, _, h2⟩
        rcases mem_pubMatchEndpoints h2 with ⟨v, ctx, _, _, havg, hup, hlo, _, _⟩
        exact ⟨by rw [havg]; rfl, hup, hlo⟩
  · rw [List.forall_iff_forall_mem]
    intro b hb
    cases pubs with
    | none => exact absurd hb (List.not_mem_nil b)
    | some ps =>
      have hmem := mem_dedupBy _ _ _ _ hb
      rcases mem_namedBaselineTier hmem with ⟨_, _, _, _, _, h2⟩
      rcases mem_pubMatchBaselines h2 with ⟨v, ctx, _, havg, hup, hlo, _, _⟩
      exact ⟨by rw [havg]; rfl, hup, hlo⟩
  · rw [List.forall_iff_forall_mem]
    intro b hb
    rcases mem_structuredBaselines hb with ⟨v, havg, hup, hlo⟩
    exact ⟨by rw [havg]; rfl, hup, hlo⟩
  · rw [List.forall_iff_forall_mem]
    intro e he
    rcases mem_structuredEndpoints he with ⟨_, ms, _, _, havg, hup, hlo, _⟩
    exact ⟨by rw [havg]; rfl, hup, hlo⟩

/-- **C2.**  For a trial document whose registry identifier is absent
from the literature tables and for which neither the structured-results
extractor nor the free-text extractor yields any entry, both fallback
orchestrators return exactly the non-empty `DEFAULT` literature sets. -/
theorem C2_default_literature_fallback (td : TrialData) (pubs : Option Publications)
    (h1 : structuredEndpoints td = [])
    (h2 : extract_publication_endpoints pubs = [])
    (h3 : structuredBaselines td = [])
    (h4 : extract_publication_baseline_measures pubs = [])
    (h5 : litEndpointTable.find? (fun kv => kv.1 = td.clinical_study.nct_identifier) = none)
    (h6 : litBaselineTable.find? (fun kv => kv.1 = td.clinical_study.nct_identifier) = none) :
    extract_real_endpoints td pubs = defaultLitEndpoints ∧
    extract_real_endpoints td pubs ≠ [] ∧
    extract_real_baseline_measures td pubs = defaultLitBaselines ∧
    extract_real_baseline_measures td pubs ≠ [] := by
  have hlitE : add_literature_based_endpoints td = defaultLitEndpoints := by
    unfold add_literature_based_endpoints
    dsimp only
    rw [h5]
  have hlitB : add_literature_based_baselines td = defaultLitBaselines := by
    unfold add_literature_based_baselines
    dsimp only
    rw [h6]
  have he : extract_real_endpoints td pubs = defaultLitEndpoints := by
    unfold extract_real_endpoints
    dsimp only
    rw [h1]
    have hinner : (if ([] : List EndpointRec) = [] ∧ pubs.isSome
        then extract_publication_endpoints pubs else ([] : List EndpointRec)) = [] := by
      split
      · exact h2
      · rfl
    rw [hinner, if_pos rfl, hlitE]
  have hb : extract_real_baseline_measures td pubs = defaultLitBaselines := by
    unfold extract_real_baseline_measures
    dsimp only
    rw [h3]
    have hinner : (if ([] : List BaselineRec) = [] ∧ pubs.isSome
        then extract_publication_baseline_measures pubs else ([] : List BaselineRec)) = [] := by
      split
      · exact h4
      · rfl
    rw [hinner, if_pos rfl, hlitB]
  exact ⟨he, by rw [he]; exact List.cons_ne_nil _ _, hb, by rw [hb]; exact List.cons_ne_nil _ _⟩

/-- **C2, witness.**  The theorem applied to a concrete document with an
unknown identifier, no structured results and no publications. -/
theorem C2_witness :
    extract_real_endpoints unknownTrialDoc none = defaultLitEndpoints ∧
    extract_real_endpoints unknownTrialDoc none ≠ [] ∧
    extract_real_baseline_measures unknownTrialDoc none = defaultLitBaselines ∧
    extract_real_baseline_measures unknownTrialDoc none ≠ [] :=
  C2_default_literature_fallback unknownTrialDoc none (by rfl) (by rfl) (by rfl) (by rfl)
    (by decide) (by decide)

/-- **C3, counterexample.**  The claim says that on the text "...PVR
decreased by 36.8% (p<0.0001) in the treatment group vs baseline 854..."
the PVR pattern group produces at least one Endpoint with
`average_value = 36.8` and `arm = "intervention"`.  It produces none: the
text is 78 characters long, so the ±200-character context window around
the single numeric match "36.8" is the whole text, which contains
"baseline", and the extractor's own skip rule discards the match.  The
output contains no record named "PVR" and none with arm
"intervention". -/
theorem C3_counterexample :
    (extract_publication_endpoints (some c3pubs)).filter
      (fun e => decide (e.name = "PVR")) = [] ∧
    (extract_publication_endpoints (some c3pubs)).filter
      (fun e => decide (e.arm = "intervention")) = [] := by
  exact ⟨by decide, by decide⟩

/-- **C3, amended.**  On that text the named-pattern tier emits nothing
(every numeric match's context window contains "baseline" and is
skipped), so the generic last-resort tier fires instead: the extractor
returns exactly one generic entry named "Endpoint" with
`average_value = 36.8`, `arm = "Not specified"` and significance
"Not specified". -/
theorem C3_amended_generic_only :
    extract_publication_endpoints (some c3pubs) = [c3genericRec] := by
  decide

/-- **C4, counterexample.**  The claim says the structured-results
extractor emits `average_value` 22.0 and −8.0 (floats) for the two
groups.  It emits the raw *strings* "22.0" and "-8.0" (the code stores
the measurement value without `float()` conversion), which are different
JSON values from the claimed numbers. -/
theorem C4_counterexample :
    (structuredEndpoints walkDoc).map (fun e => e.average_value) =
      [JVal.s "22.0", JVal.s "-8.0"] ∧
    JVal.s "22.0" ≠ JVal.n 22 ∧
    JVal.s "-8.0" ≠ JVal.n (-8) := by
  exact ⟨by decide, by decide, by decide⟩

/-- **C4, amended.**  On the claim's document the structured-results
extractor emits exactly two Endpoint entries named "6-Minute Walk
Distance", one with arm "intervention" and `average_value` the string
"22.0", one with arm "placebo" and `average_value` the string "-8.0". -/
theorem C4_amended_two_string_entries :
    structuredEndpoints walkDoc =
      [{ name := "6-Minute Walk Distance",
         description := "Measurement of 6-minute walk distance in patients",
         timepoint := "Unknown", arm := "intervention",
         average_value := .s "22.0", upper_end := .null, lower_end := .null,
         statistical_significance := .s "Unknown", source := none, context := none },
       { name := "6-Minute Walk Distance",
         description := "Measurement of 6-minute walk distance in patients",
         timepoint := "Unknown", arm := "placebo",
         average_value := .s "-8.0", upper_end := .null, lower_end := .null,
         statistical_significance := .s "Unknown", source := none, context := none }] := by
  decide

/-- **C5, counterexample.**  The claim says each listed group whose title
contains an intervention term is classified `intervention`.  With two
groups titled "Treatment A" and "Treatment B", the single classification
slot keeps only the *last* one, so the measurement attached to
"Treatment A" — whose title contains "treatment" — is emitted with arm
"unknown". -/
theorem C5_counterexample :
    hasSubS "treatment" (lowerStr "Treatment A") = true ∧
    (structuredEndpoints twoTreatmentDoc).map (fun e => e.arm) = ["unknown"] := by
  exact ⟨by decide, by decide⟩

/-- **C5, amended.**  Per outcome, the classification pass retains only
the id of the *last* listed group whose title contains "placebo" and the
id of the *last* listed group whose title contains an intervention term
(and not "placebo", which takes priority); a measurement is classified
"intervention" or "placebo" exactly when its group id equals the
respective retained id — the intervention slot checked first — and every
other measurement, including those of earlier matching groups, is emitted
with arm "unknown" (the only three possible values). -/
theorem C5_amended_last_match_wins :
    (∀ gs : List RawGroup,
      classifyGroups gs = (lastInterventionId gs, lastPlaceboId gs)) ∧
    (∀ (gs : List RawGroup) (gid : String),
      (armOf (classifyGroups gs) gid = "intervention" ↔
        lastInterventionId gs = some gid) ∧
      (armOf (classifyGroups gs) gid = "placebo" ↔
        (lastPlaceboId gs = some gid ∧ lastInterventionId gs ≠ some gid)) ∧
      (armOf (classifyGroups gs) gid = "unknown" ↔
        (lastInterventionId gs ≠ some gid ∧ lastPlaceboId gs ≠ some gid))) ∧
    (∀ td : TrialData, (structuredEndpoints td).Forall
      (fun e => e.arm = "intervention" ∨ e.arm = "placebo" ∨ e.arm = "unknown")) := by
  refine ⟨classifyGroups_eq_last, ?_, ?_⟩
  · intro gs gid
    rw [classifyGroups_eq_last]
    unfold armOf
    dsimp only
    by_cases h1 : lastInterventionId gs = some gid
    · rw [if_pos h1]
      refine ⟨by simp [h1], ?_, ?_⟩
      · constructor
        · intro hc
          exact absurd hc (by decide)
        · rintro ⟨_, hne⟩
          exact absurd h1 hne
      · constructor
        · intro hc
          exact absurd hc (by decide)
        · rintro ⟨hne, _⟩
          exact absurd h1 hne
    · rw [if_neg h1]
      by_cases h2 : lastPlaceboId gs = some gid
      · rw [if_pos h2]
        refine ⟨?_, by simp [h1, h2], ?_⟩
        · constructor
          · intro hc
            exact absurd hc (by decide)
          · intro hi
            exact absurd hi h1
        · constructor
          · intro hc
            exact absurd hc (by decide)
          · rintro ⟨_, hne⟩
            exact absurd h2 hne
      · rw [if_neg h2]
        refine ⟨?_, ?_, by simp [h1, h2]⟩
        · constructor
          · intro hc
            exact absurd hc (by decide)
          · intro hi
            exact absurd hi h1
        · constructor
          · intro hc
            exact absurd hc (by decide)
          · rintro ⟨hp, _⟩
            exact absurd hp h2
  · intro td
    rw [List.forall_iff_forall_mem]
    intro e he
    rcases mem_structuredEndpoints he with ⟨oc, ms, _, _, _, _, _, harm⟩
    rw [harm]
    exact armOf_mem_three _ _

/-- **C6.**  The alias normalizer is total and returns, for every input,
either the upper-cased canonical label of the *first* alias category (in
fixed table order) one of whose aliases occurs case-insensitively as a
substring of the input — with every earlier category failing to match —
or, when no alias matches at all, the input with whitespace collapsed and
trimmed. -/
theorem C6_alias_normalizer_first_match (name : String) :
    (∃ i, ∃ h : i < endpoint_aliases.length,
      aliasHits (lowerStr name) (endpoint_aliases.get ⟨i, h⟩) = true ∧
      (∀ j, ∀ hj : j < endpoint_aliases.length, j < i →
        aliasHits (lowerStr name) (endpoint_aliases.get ⟨j, hj⟩) = false) ∧
      normalize_endpoint_name name = upperStr (endpoint_aliases.get ⟨i, h⟩).1) ∨
    ((∀ kv ∈ endpoint_aliases, aliasHits (lowerStr name) kv = false) ∧
      normalize_endpoint_name name = collapseWs name) := by
  rcases find?_first_spec (aliasHits (lowerStr name)) endpoint_aliases with
    ⟨hfind, hall⟩ | ⟨i, h, hpi, hbefore, hfind⟩
  · right
    refine ⟨hall, ?_⟩
    unfold normalize_endpoint_name
    dsimp only
    rw [hfind]
  · left
    refine ⟨i, h, hpi, ?_, ?_⟩
    · intro j hj hji
      exact hbefore j hj hji
    · unfold normalize_endpoint_name
      dsimp only
      rw [hfind]

/-- **C7.**  Deduplication — grouping by `(name, arm)` and keeping, within
each group, the earliest entry with the most non-null values — is
idempotent, and its output has exactly one entry per `(name, arm)` pair;
the same holds for the baseline variant. -/
theorem C7_dedup_idempotent (l : List EndpointRec) (lb : List BaselineRec) :
    dedupEndpoints (dedupEndpoints l) = dedupEndpoints l ∧
    ((dedupEndpoints l).map (fun e => (e.name, e.arm))).Nodup ∧
    dedupBaselines (dedupBaselines lb) = dedupBaselines lb ∧
    ((dedupBaselines lb).map (fun b => (b.name, b.arm))).Nodup :=
  ⟨dedupBy_idem _ _ l, nodup_map_key_dedupBy _ _ l,
   dedupBy_idem _ _ lb, nodup_map_key_dedupBy _ _ lb⟩

/-- The single-endpoint store on which the two compare paths disagree:
one trial with one name-matching endpoint whose arm is "unknown". -/
def unknownArmStore : Store :=
  { trials :=
      [{ nct_identifier := "NCT00000001", title := "Trial", sponsor := "S",
         endpoints :=
           [{ name := "PVR", description := "d", timepoint := "Week 1",
              arm := "unknown", average_value := .n 5, upper_end := .null,
              lower_end := .null, statistical_significance := .s "p=0.05",
              source := none, context := none }] }] }

/-- **C8, counterexample.**  The claim says both compare-endpoint paths
select the same entries for both values of the placebo flag.  With
`include_placebo = False`, on a store holding one name-matching endpoint
with arm "unknown", the database path keeps only arm `"intervention"` and
so selects nothing, while the JSON path skips only arm `"placebo"` and
selects the row. -/
theorem C8_counterexample :
    dbCompareSelect unknownArmStore "pvr" false = [] ∧
    jsonCompareSelect unknownArmStore "pvr" false ≠ [] ∧
    dbCompareSelect unknownArmStore "pvr" false ≠
      jsonCompareSelect unknownArmStore "pvr" false := by
  exact ⟨by decide, by decide, by decide⟩

/-- **C8, amended.**  With `include_placebo = True` the database path and
the JSON path select exactly the same rows; with
`include_placebo = False` the database selection (only `"intervention"`
arms) is a sublist of the JSON selection (which excludes only `"placebo"`
arms and keeps every other arm value). -/
theorem C8_amended_paths_agreement (st : Store) (nm : String) :
    dbCompareSelect st nm true = jsonCompareSelect st nm true ∧
    (dbCompareSelect st nm false).Sublist (jsonCompareSelect st nm false) := by
  obtain ⟨trials⟩ := st
  constructor
  · rw [jsonCompareSelect_eq_filter]
    unfold dbCompareSelect
    dsimp only
    rw [if_pos rfl]
    rw [List.filter_congr (by
      intro te _
      show hasSubS (lowerStr nm) (lowerStr te.2.name) =
        (epNameMatches nm te.2 && (true || !(te.2.arm = "placebo" : Bool)))
      simp [epNameMatches])]
  · rw [jsonCompareSelect_eq_filter]
    unfold dbCompareSelect
    dsimp only
    rw [if_neg (by decide)]
    rw [List.filter_filter]
    refine List.Sublist.map _ (List.monotone_filter_right _ ?_)
    intro te hte
    have h1 : te.2.arm = "intervention" := by
      have := (Bool.and_eq_true _ _).mp hte
      exact of_decide_eq_true this.1
    have h2 : epNameMatches nm te.2 = true := by
      have := (Bool.and_eq_true _ _).mp hte
      exact this.2
    have h3 : te.2.arm ≠ "placebo" := by
      rw [h1]
      decide
    simp [h2, h3]

/-- The trial record present in the JSON store for the C9 evaluation. -/
def c9TrialFile : TrialFile :=
  { nct_identifier := "NCT00660179", title := "SERAPHIN", sponsor := "Actelion",
    endpoints := [] }

/-- The serving state with an unreachable relational store and the record
present in the JSON fallback store. -/
def c9State : ApiState :=
  { dbReachable := false, handlerQueryFails := false,
    db := ⟨[]⟩, jsonDetails := ⟨[c9TrialFile]⟩ }

/-- **C9.**  The claim (and the code's own "PostgreSQL with JSON
fallback" self-description) says an unreachable relational store falls
back to the JSON file store.  But the routes take the database session as
a FastAPI dependency, and `get_db` raises `HTTPException(500)` when its
`SELECT 1` probe fails — before any handler (and its JSON-fallback
`except` branch) runs.  With the store unreachable and the requested
record present in the JSON store, both routes surface a 500 server error
instead of the record. -/
theorem C9_unreachable_db_surfaces_500 :
    get_trial_by_nct c9State "NCT00660179" =
      .serverError "Database connection error" ∧
    compare_endpoint c9State "pvr" true =
      .serverError "Database connection error" ∧
    jsonLookup c9State "NCT00660179" = some c9TrialFile ∧
    (get_trial_by_nct { c9State with dbReachable := true } "NCT00660179" =
      .ok c9TrialFile) := by
  exact ⟨by decide, by decide, by decide, by decide⟩

/-- **C10.**  Every record emitted by the free-text extractor's
named-pattern tier has arm exactly "intervention" or "placebo" — and
whenever the stored context window mentions no placebo/control term the
arm is "intervention" — never "unknown"; only the generic last-resort
tier (which fires only when the named tier produced nothing) emits
entries with arm "Not specified", a value outside the
{intervention, placebo, unknown} enumeration. -/
theorem C10_freetext_arm_enumeration (pubs : Option Publications) (ps : Publications) :
    (namedEndpointTier ps).Forall (fun e =>
      (e.arm = "intervention" ∨ e.arm = "placebo") ∧ e.arm ≠ "unknown" ∧
      ∀ c : String, e.context = some (.s c) →
        containsAnyL c.toList placeboTerms = false → e.arm = "intervention") ∧
    (namedBaselineTier ps).Forall (fun b =>
      (b.arm = "intervention" ∨ b.arm = "placebo") ∧ b.arm ≠ "unknown" ∧
      ∀ c : String, b.context = some (.s c) →
        containsAnyL c.toList placeboTerms = false → b.arm = "intervention") ∧
    (extract_publication_endpoints pubs).Forall (fun e =>
      e.arm = "intervention" ∨ e.arm = "placebo" ∨
        (e.arm = "Not specified" ∧ e.name = "Endpoint")) ∧
    (extract_publication_baseline_measures pubs).Forall (fun b =>
      b.arm = "intervention" ∨ b.arm = "placebo") ∧
    (namedEndpointTier ps ≠ [] →
      (extract_publication_endpoints (some ps)).Forall (fun e => e.arm ≠ "Not specified")) ∧
    ("Not specified" ≠ "intervention" ∧ "Not specified" ≠ "placebo" ∧
      "Not specified" ≠ "unknown") := by
  have harmE : ∀ {e : EndpointRec}, e ∈ namedEndpointTier ps →
      (e.arm = "intervention" ∨ e.arm = "placebo") ∧ e.arm ≠ "unknown" ∧
      ∀ c : String, e.context = some (.s c) →
        containsAnyL c.toList placeboTerms = false → e.arm = "intervention" := by
    intro e he
    rcases mem_namedEndpointTier he with ⟨_, _, _, _, _, h2⟩
    rcases mem_pubMatchEndpoints h2 with ⟨v, ctx, _, _, _, _, _, harm, hctx⟩
    constructor
    · by_cases hp : containsAnyL ctx placeboTerms
      · rw [harm, if_pos hp]
        exact Or.inr rfl
      · rw [harm, if_neg hp]
        exact Or.inl rfl
    constructor
    · by_cases hp : containsAnyL ctx placeboTerms
      · rw [harm, if_pos hp]
        decide
      · rw [harm, if_neg hp]
        decide
    · intro c hc hnone
      rw [hctx] at hc
      have hceq : c = String.mk ctx := by
        injection hc with hc2
        injection hc2 with hc3
        exact hc3.symm
      have hctxeq : c.toList = ctx := by
        rw [hceq]
        rfl
      rw [hctxeq] at hnone
      rw [harm, hnone]
      rfl
  have harmB : ∀ {b : BaselineRec}, b ∈ namedBaselineTier ps →
      (b.arm = "intervention" ∨ b.arm = "placebo") ∧ b.arm ≠ "unknown" ∧
      ∀ c : String, b.context = some (.s c) →
        containsAnyL c.toList placeboTerms = false → b.arm = "intervention" := by
    intro b hb
    rcases mem_namedBaselineTier hb with ⟨_, _, _, _, _, h2⟩
    rcases mem_pubMatchBaselines h2 with ⟨v, ctx, _, _, _, _, harm, hctx⟩
    constructor
    · by_cases hp : containsAnyL ctx placeboTerms
      · rw [harm, if_pos hp]
        exact Or.inr rfl
      · rw [harm, if_neg hp]
        exact Or.inl rfl
    constructor
    · by_cases hp : containsAnyL ctx placeboTerms
      · rw [harm, if_pos hp]
        decide
      · rw [harm, if_neg hp]
        decide
    · intro c hc hnone
      rw [hctx] at hc
      have hceq : c = String.mk ctx := by
        injection hc with hc2
        injection hc2 with hc3
        exact hc3.symm
      have hctxeq : c.toList = ctx := by
        rw [hceq]
        rfl
      rw [hctxeq] at hnone
      rw [harm, hnone]
      rfl
  have hepArm : ∀ (qs : Option Publications) (e : EndpointRec),
      e ∈ extract_publication_endpoints qs →
      e.arm = "intervention" ∨ e.arm = "placebo" ∨
        (e.arm = "Not specified" ∧ e.name = "Endpoint") := by
    intro qs e he
    cases qs with
    | none => exact absurd he (List.not_mem_nil e)
    | some ps2 =>
      have hmem := mem_dedupBy _ _ _ _ he
      by_cases hcond : namedEndpointTier ps2 = [] ∧
          (ps2.scientific_publications ≠ [] ∨ ps2.company_presentations ≠ [])
      · rw [if_pos hcond] at hmem
        rcases mem_genericEndpointTier hmem with ⟨v, hname, harm, _, _, _⟩
        exact Or.inr (Or.inr ⟨harm, hname⟩)
      · rw [if_neg hcond] at hmem
        rcases mem_namedEndpointTier hmem with ⟨_, _, _, _, _, h2⟩
        rcases mem_pubMatchEndpoints h2 with ⟨v, ctx, _, _, _, _, _, harm, _⟩
        by_cases hp : containsAnyL ctx placeboTerms
        · rw [harm, if_pos hp]
          exact Or.inr (Or.inl rfl)
        · rw [harm, if_neg hp]
          exact Or.inl rfl
  refine ⟨?_, ?_, ?_, ?_, ?_, by decide, by decide, by decide⟩
  · rw [List.forall_iff_forall_mem]
    intro e he
    exact harmE he
  · rw [List.forall_iff_forall_mem]
    intro b hb
    exact harmB hb
  · rw [List.forall_iff_forall_mem]
    intro e he
    exact hepArm pubs e he
  · rw [List.forall_iff_forall_mem]
    intro b hb
    cases pubs with
    | none => exact absurd hb (List.not_mem_nil b)
    | some ps2 =>
      have hmem := mem_dedupBy _ _ _ _ hb
      rcases mem_namedBaselineTier hmem with ⟨_, _, _, _, _, h2⟩
      rcases mem_pubMatchBaselines h2 with ⟨v, ctx, _, _, _, _, harm, _⟩
      by_cases hp : containsAnyL ctx placeboTerms
      · rw [harm, if_pos hp]
        exact Or.inr rfl
      · rw [harm, if_neg hp]
        exact Or.inl rfl
  · intro hne
    rw [List.forall_iff_forall_mem]
    intro e he
    have hmem := mem_dedupBy _ _ _ _ he
    rw [if_neg (by
      rintro ⟨hn, _⟩
      exact hne hn)] at hmem
    rcases mem_namedEndpointTier hmem with ⟨_, _, _, _, _, h2⟩
    rcases mem_pubMatchEndpoints h2 with ⟨v, ctx, _, _, _, _, _, harm, _⟩
    by_cases hp : containsAnyL ctx placeboTerms
    · rw [harm, if_pos hp]
      decide
    · rw [harm, if_neg hp]
      decide

end ClinicalTrials
